import Mathlib

/-!
Shallow embedding of the decision core of the `etf-dashboard` repository
(`src/etf_dashboard/rules.py`, `cli.py`, `laowang.py`).  Python floats are
modelled as rationals (`ℚ`); Python `None` becomes `Option`; `float(round(x, 4))`
becomes `round4`.  Each Lean definition transcribes the corresponding Python
function, keeping its name and control flow.
-/

namespace EtfDashboard

/-- Model of Python `round(x, 4)` (round to 4 decimal places). -/
def round4 (x : ℚ) : ℚ := (round (x * 10000) : ℤ) / 10000

/-! ## rules.py : win-rate breakdown -/

/-- `WinRateComponentStatus` enum from rules.py. -/
inductive WinRateComponentStatus
  | APPLIED
  | NOT_APPLIED
  | SKIPPED_MISSING
  deriving DecidableEq, Repr

/-- `WinRateComponentKind` enum from rules.py. -/
inductive WinRateComponentKind
  | BASE
  | BONUS
  | PENALTY
  deriving DecidableEq, Repr

/-- `WinRateComponent` dataclass from rules.py. -/
structure WinRateComponent where
  kind : WinRateComponentKind
  name : String
  delta : ℚ
  status : WinRateComponentStatus
  missing_fields : List String
  note : Option String
  deriving DecidableEq, Repr

/-- `WinRateBreakdown` dataclass from rules.py. -/
structure WinRateBreakdown where
  base : Option ℚ
  bonus_total : ℚ
  penalty_total : ℚ
  w_raw : Option ℚ
  w_clamped : Option ℚ
  clamp_min : ℚ
  clamp_max : ℚ
  components : List WinRateComponent
  deriving DecidableEq, Repr

/-- `_missing` helper for a single (name, value) pair. -/
def missing1 {α : Type} (n1 : String) (v1 : Option α) : List String :=
  if v1.isNone then [n1] else []

/-- `_missing` helper for two (name, value) pairs. -/
def missing2 {α β : Type} (n1 : String) (v1 : Option α) (n2 : String) (v2 : Option β) :
    List String :=
  (if v1.isNone then [n1] else []) ++ (if v2.isNone then [n2] else [])

/-- Body of `add_rule` in `choose_win_rate_breakdown`: the single component a
rule contributes to the component list. -/
def mkRuleComponent (kind : WinRateComponentKind) (name : String) (delta_if_true : ℚ)
    (cond : Bool) (missing : List String) (note : Option String) : WinRateComponent :=
  if ¬ missing.isEmpty then
    ⟨kind, name, 0, .SKIPPED_MISSING, missing, note⟩
  else if cond then
    ⟨kind, name, delta_if_true, .APPLIED, [], note⟩
  else
    ⟨kind, name, 0, .NOT_APPLIED, [], note⟩

/-- Whether a rule of `add_rule` fires (no missing input and `cond is True`). -/
def ruleApplied (cond : Bool) (missing : List String) : Bool :=
  missing.isEmpty && cond

/-- Delta contributed by a rule to its kind's running total. -/
def ruleDelta (delta_if_true : ℚ) (cond : Bool) (missing : List String) : ℚ :=
  if ruleApplied cond missing then delta_if_true else 0

/-- Option comparison `x is not None and x < c` used by rule conditions. -/
def optLt (x : Option ℚ) (c : ℚ) : Bool :=
  match x with
  | some v => v < c
  | none => false

/-- Option comparison `x is not None and x > c` used by rule conditions. -/
def optGt (x : Option ℚ) (c : ℚ) : Bool :=
  match x with
  | some v => c < v
  | none => false

/-- `choose_win_rate_breakdown` from rules.py: explainable Base+Bonus+Penalty
win-rate `W` used in Kelly sizing.  The eleven `add_rule` calls of the source
are unrolled in order; `vol_ratio` and `ma20_slope` are parameters of the
source signature (`ma20_slope` is unused by the body, as in the source). -/
def choose_win_rate_breakdown
    (p_now ma150 ma50 ma200 vol_ratio ma20_slope : Option ℚ)
    (san_yang : Option Bool)
    (rsi14 : Option ℚ) (rule_35_zone : Option String) (bias60 : Option ℚ)
    (gap_open gap_filled gap_filled_by_close : Option Bool)
    (gap_direction_by_close : Option String)
    (island_reversal_bearish island_reversal_bullish : Option Bool)
    (vol_spike_defense_broken : Option Bool)
    (bearish_long_black_engulf bearish_distribution_day bearish_price_up_vol_down : Option Bool)
    (san_sheng_wu_nai : Option Bool)
    (clamp_min clamp_max : ℚ) : WinRateBreakdown :=
  let _ := ma20_slope
  let _ := bearish_distribution_day
  let _ := bearish_price_up_vol_down
  let base_missing : List String :=
    (if p_now.isNone then ["p_now"] else []) ++ (if ma150.isNone then ["ma150"] else [])
      ++ (if ma50.isNone then ["ma50"] else []) ++ (if ma200.isNone then ["ma200"] else [])
  match p_now, ma150, ma50, ma200 with
  | some p, some m150, some m50, some m200 =>
    let bull : Bool := (m150 < p) && (m200 < m50)
    let base_w : ℚ := if bull then 60 / 100 else 30 / 100
    let baseComp : WinRateComponent :=
      ⟨.BASE, "趨勢多空(Base)", base_w, .APPLIED, [],
        some (if bull then "Bull: P_now>MA150 且 MA50>MA200" else "Bear: 其餘情況")⟩
    -- rule 1: bonus 三方共振 +0.10
    let c1 : Bool := san_yang == some true
    let m1 := missing1 "san_yang" san_yang
    -- rule 2: bonus 價值回歸 +0.20 (GOLD + RSI<30)
    let c2 : Bool := (rule_35_zone == some "GOLD") && rsi14.isSome && optLt rsi14 30
    let m2 := missing2 "rule_35_zone" rule_35_zone "rsi14" rsi14
    -- rule 3: bonus 多頭動能 +0.10 (bull & vol_ratio>1 & bias60<10)
    let c3 : Bool := bull && vol_ratio.isSome && optGt vol_ratio 1 && bias60.isSome && optLt bias60 10
    let m3 := missing2 "vol_ratio" vol_ratio "bias60" bias60
    let n3 : String := if bull then "僅在 Bull base 生效" else "Bear base 不加分"
    -- rule 4: bonus gap closed by close, direction DOWN +0.10
    let c4 : Bool := (gap_filled_by_close == some true) && (gap_direction_by_close == some "DOWN")
    let m4 := missing2 "gap_filled_by_close" gap_filled_by_close
      "gap_direction_by_close" gap_direction_by_close
    -- rule 5: penalty gap closed by close, direction UP -0.10
    let c5 : Bool := (gap_filled_by_close == some true) && (gap_direction_by_close == some "UP")
    let m5 := m4
    -- rule 6: penalty bearish island reversal -0.10
    let c6 : Bool := island_reversal_bearish == some true
    let m6 := missing1 "island_reversal_bearish" island_reversal_bearish
    -- rule 7: bonus bullish island reversal +0.10
    let c7 : Bool := island_reversal_bullish == some true
    let m7 := missing1 "island_reversal_bullish" island_reversal_bullish
    -- rule 8: penalty massive volume defense broken -0.10
    let c8 : Bool := vol_spike_defense_broken == some true
    let m8 := missing1 "vol_spike_defense_broken" vol_spike_defense_broken
    -- rule 9: penalty 凶多吉少 -0.10
    let c9 : Bool := bearish_long_black_engulf == some true
    let m9 := missing1 "bearish_long_black_engulf" bearish_long_black_engulf
    -- rule 10: penalty 三聲無奈 -0.10
    let c10 : Bool := san_sheng_wu_nai == some true
    let m10 := missing1 "san_sheng_wu_nai" san_sheng_wu_nai
    -- rule 11: penalty open gap not filled -0.10
    let c11 : Bool := (gap_open == some true) && (gap_filled == some false)
    let m11 := missing2 "gap_open" gap_open "gap_filled" gap_filled
    let bonus_total : ℚ :=
      ruleDelta (10 / 100) c1 m1 + ruleDelta (20 / 100) c2 m2 + ruleDelta (10 / 100) c3 m3
        + ruleDelta (10 / 100) c4 m4 + ruleDelta (10 / 100) c7 m7
    let penalty_total : ℚ :=
      ruleDelta (-(10 / 100)) c5 m5 + ruleDelta (-(10 / 100)) c6 m6
        + ruleDelta (-(10 / 100)) c8 m8 + ruleDelta (-(10 / 100)) c9 m9
        + ruleDelta (-(10 / 100)) c10 m10 + ruleDelta (-(10 / 100)) c11 m11
    let w_raw : ℚ := round4 (base_w + bonus_total + penalty_total)
    let w_clamped0 : ℚ := if w_raw < clamp_min then clamp_min else w_raw
    let w_clamped1 : ℚ := if clamp_max < w_clamped0 then clamp_max else w_clamped0
    { base := some base_w
      bonus_total := round4 bonus_total
      penalty_total := round4 penalty_total
      w_raw := some w_raw
      w_clamped := some (round4 w_clamped1)
      clamp_min := clamp_min
      clamp_max := clamp_max
      components :=
        [baseComp,
          mkRuleComponent .BONUS "三方共振(三陽開泰)" (10 / 100) c1 m1 none,
          mkRuleComponent .BONUS "價值回歸(35法則GOLD + RSI<30)" (20 / 100) c2 m2 none,
          mkRuleComponent .BONUS "多頭動能(bull + 放量 + BIAS60<10)" (10 / 100) c3 m3 (some n3),
          mkRuleComponent .BONUS "缺口收盤封閉(向下跳空)" (10 / 100) c4 m4 none,
          mkRuleComponent .PENALTY "缺口收盤封閉(向上跳空)" (-(10 / 100)) c5 m5 none,
          mkRuleComponent .PENALTY "頂部島狀反轉" (-(10 / 100)) c6 m6 none,
          mkRuleComponent .BONUS "底部島狀反轉" (10 / 100) c7 m7 none,
          mkRuleComponent .PENALTY "爆量防守跌破" (-(10 / 100)) c8 m8 none,
          mkRuleComponent .PENALTY "凶多吉少(長黑破三線)" (-(10 / 100)) c9 m9
            (some "定義：長黑K且收盤價同時跌破 MA5/MA10/MA20"),
          mkRuleComponent .PENALTY "三聲無奈" (-(10 / 100)) c10 m10 none,
          mkRuleComponent .PENALTY "開盤缺口未封閉(保守風險)" (-(10 / 100)) c11 m11 none] }
  | _, _, _, _ =>
    { base := none
      bonus_total := 0
      penalty_total := 0
      w_raw := none
      w_clamped := none
      clamp_min := clamp_min
      clamp_max := clamp_max
      components :=
        [⟨.BASE, "趨勢多空(Base)", 0, .SKIPPED_MISSING, base_missing,
          some "Base 無法判斷，W=MISSING"⟩] }

/-- `choose_win_rate` from rules.py (legacy wrapper: the single
`island_reversal` boolean is treated as the bearish flavor). -/
def choose_win_rate
    (p_now ma150 ma50 ma200 vol_ratio ma20_slope : Option ℚ)
    (san_yang : Option Bool)
    (rsi14 : Option ℚ) (rule_35_zone : Option String) (bias60 : Option ℚ)
    (gap_open gap_filled gap_filled_by_close : Option Bool)
    (gap_direction_by_close : Option String)
    (island_reversal : Option Bool)
    (vol_spike_defense_broken : Option Bool)
    (bearish_long_black_engulf bearish_distribution_day bearish_price_up_vol_down :
      Option Bool) : Option ℚ :=
  (choose_win_rate_breakdown p_now ma150 ma50 ma200 vol_ratio ma20_slope san_yang
    rsi14 rule_35_zone bias60 gap_open gap_filled gap_filled_by_close
    gap_direction_by_close island_reversal none vol_spike_defense_broken
    bearish_long_black_engulf bearish_distribution_day bearish_price_up_vol_down
    none (15 / 100) (85 / 100)).w_clamped

/-! ## rules.py : Kelly sizing -/

/-- `KellyPlan` dataclass from rules.py. -/
structure KellyPlan where
  w : ℚ
  entry : ℚ
  stop : ℚ
  target : ℚ
  r : ℚ
  f_raw : ℚ
  f_capped : ℚ
  target_mode : String
  deriving DecidableEq, Repr

/-- `kelly` from rules.py (the `raise ValueError` branches become `.error`). -/
def kelly (entry stop target w : ℚ) (cap : ℚ) : Except String KellyPlan :=
  if entry ≤ stop then .error "entry must be > stop"
  else if target ≤ entry then .error "target must be > entry"
  else
    let r := (target - entry) / (entry - stop)
    let f := (w * (r + 1) - 1) / r
    let f_capped := max 0 (min cap f)
    .ok ⟨w, entry, stop, target, r, f, f_capped, ""⟩

/-- Inline Kelly computation of `build_report` (cli.py lines 476-482): the pair
`(kelly_f_raw, kelly_f_capped)`, computed only when `w`, `p_now`, `stop`,
`target` and `r_val` are all defined. -/
def kelly_from_report (w p_now stop target r_val : Option ℚ) (max_position_pct : ℚ) :
    Option ℚ × Option ℚ :=
  match w, p_now, stop, target, r_val with
  | some w0, some _, some _, some _, some r0 =>
    let f := (w0 * (r0 + 1) - 1) / r0
    (some f, some (max 0 (min max_position_pct f)))
  | _, _, _, _, _ => (none, none)

/-! ## cli.py : 35-rule zone, stop/target, final rating, evidence gate -/

/-- Result of `_rule_35_zone` (cli.py): thresholds and the zone label. -/
structure Rule35Zone where
  weak : Option ℚ
  watch : Option ℚ
  gold : Option ℚ
  zone : String
  deriving DecidableEq, Repr

/-- `_rule_35_zone` from cli.py. -/
def rule_35_zone (p_now p_high : Option ℚ) : Rule35Zone :=
  match p_now, p_high with
  | some p, some ph =>
    let weak := ph * (8 / 10)
    let watch := ph * (7 / 10)
    let gold := ph * (65 / 100)
    let zone : String :=
      if weak ≤ p then "安全區"
      else if watch ≤ p then "觀察區"
      else if gold ≤ p then "接近抄底區"
      else "跌深區"
    ⟨some weak, some watch, some gold, zone⟩
  | _, _ => ⟨none, none, none, "MISSING"⟩

/-- Result record of `_stop_target` (cli.py): stop, target, R, target_mode,
stop_from_pct. -/
structure StopTarget where
  stop : Option ℚ
  target : Option ℚ
  r : Option ℚ
  target_mode : String
  stop_from_pct : Option ℚ
  deriving DecidableEq, Repr

instance {ε α : Type} [DecidableEq ε] [DecidableEq α] : DecidableEq (Except ε α) := fun
  | .error e1, .error e2 => decidable_of_iff (e1 = e2) (by simp)
  | .error _, .ok _ => isFalse Except.noConfusion
  | .ok _, .error _ => isFalse Except.noConfusion
  | .ok a, .ok b => decidable_of_iff (a = b) (by simp)

/-- The stop computed before target logic in `_stop_target`:
`max(MA20, stop_from_pct)` when MA20 exists and MA20 < entry, else
`stop_from_pct`. -/
def stopOf (entry : ℚ) (ma20 : Option ℚ) (stop_from_pct : ℚ) : ℚ :=
  match ma20 with
  | none => stop_from_pct
  | some m => if entry ≤ m then stop_from_pct else max m stop_from_pct

/-- `_stop_target` from cli.py (the `raise ValueError` on negative `min_rr`
becomes `.error`). -/
def stop_target (entry ma20 p_high : Option ℚ) (stop_loss_pct min_rr : ℚ) :
    Except String StopTarget :=
  match entry with
  | none => .ok ⟨none, none, none, "MISSING", none⟩
  | some e =>
    if min_rr < 0 then .error "min_rr must be >= 0"
    else
      let stop_from_pct := e * (1 - stop_loss_pct)
      let stop := stopOf e ma20 stop_from_pct
      match p_high with
      | none => .ok ⟨some stop, none, none, "MISSING_P_HIGH", some stop_from_pct⟩
      | some ph =>
        let target := ph
        let denom := e - stop
        if denom ≤ 0 then
          .ok ⟨some stop, some target, none, "INVALID_STOP_GE_ENTRY", some stop_from_pct⟩
        else
          let r_val := (target - e) / denom
          if r_val ≤ 0 then
            .ok ⟨some stop_from_pct, some target, none,
              "INVALID_TARGET_LE_ENTRY_USE_PCT_STOP", some stop_from_pct⟩
          else if r_val < min_rr then
            .ok ⟨some stop, some (e + min_rr * denom), some min_rr, "MIN_RR",
              some stop_from_pct⟩
          else
            .ok ⟨some stop, some target, some r_val, "P_HIGH", some stop_from_pct⟩

/-- `_final_rating` from cli.py. -/
def final_rating (evidence_ok : Bool) (regime : String) (san_yang : Option Bool)
    (vol_attack : Bool) (vol_ratio : Option ℚ) (bench_regime : String)
    (kelly_f : Option ℚ) : String :=
  if ¬ evidence_ok then "⛔ 資料不足（禁止結論）"
  else if (match kelly_f with | some k => decide (k ≤ 0) | none => false) then "✋ 觀望"
  else if bench_regime ≠ "BULL" then "✋ 觀望"
  else if regime == "BULL" && (san_yang == some true)
      && (vol_attack || (match vol_ratio with | some v => decide (6 / 5 ≤ v) | none => false))
    then "⭐ 強力買進"
  else if regime == "BULL" then "👀 拉回觀察"
  else "✋ 觀望"

/-- The `required` evidence checklist assembled in `build_report`
(cli.py lines 485-513), in source order. -/
structure RequiredEvidence where
  p_now : Option ℚ
  ma20 : Option ℚ
  ma60 : Option ℚ
  ma150 : Option ℚ
  ma200 : Option ℚ
  bias60 : Option ℚ
  p_high : Option ℚ
  v_today : Option ℚ
  v_avg : Option ℚ
  rsi14 : Option ℚ
  macd : Option ℚ
  bench_p_now : Option ℚ
  bench_ma150 : Option ℚ
  stop : Option ℚ
  target : Option ℚ
  r_val : Option ℚ
  kelly_f_capped : Option ℚ
  trailing_stop : Option ℚ
  trailing_stop_hit : Option Bool
  gap_open : Option Bool
  gap_filled : Option Bool
  gap_filled_by_close : Option Bool
  island_reversal : Option Bool
  vol_spike_defense_broken : Option Bool
  bearish_long_black_engulf : Option Bool
  bearish_distribution_day : Option Bool
  bearish_price_up_vol_down : Option Bool
  deriving DecidableEq, Repr

/-- `evidence_ok = all(x is not None for x in required)` from `build_report`. -/
def evidence_ok (e : RequiredEvidence) : Bool :=
  e.p_now.isSome && e.ma20.isSome && e.ma60.isSome && e.ma150.isSome && e.ma200.isSome
    && e.bias60.isSome && e.p_high.isSome && e.v_today.isSome && e.v_avg.isSome
    && e.rsi14.isSome && e.macd.isSome && e.bench_p_now.isSome && e.bench_ma150.isSome
    && e.stop.isSome && e.target.isSome && e.r_val.isSome && e.kelly_f_capped.isSome
    && e.trailing_stop.isSome && e.trailing_stop_hit.isSome && e.gap_open.isSome
    && e.gap_filled.isSome && e.gap_filled_by_close.isSome && e.island_reversal.isSome
    && e.vol_spike_defense_broken.isSome && e.bearish_long_black_engulf.isSome
    && e.bearish_distribution_day.isSome && e.bearish_price_up_vol_down.isSome

/-- `rr_ok = (r_val is not None) and (r_val >= min_rr)` from `build_report`. -/
def rr_ok (r_val : Option ℚ) (min_rr : ℚ) : Bool :=
  match r_val with
  | some r => min_rr ≤ r
  | none => false

/-- The final-rating call of `build_report` (cli.py lines 518-526):
`_final_rating(evidence_ok=(evidence_ok and rr_ok), ...)` with
`kelly_f=kelly_f_capped`. -/
def report_rating (e : RequiredEvidence) (min_rr : ℚ) (regime : String)
    (san_yang : Option Bool) (vol_attack : Bool) (vol_ratio : Option ℚ)
    (bench_regime : String) : String :=
  final_rating (evidence_ok e && rr_ok e.r_val min_rr) regime san_yang vol_attack
    vol_ratio bench_regime e.kelly_f_capped

/-- One of the 27 entries of the `required` checklist is `None`. -/
def anyRequiredMissing (e : RequiredEvidence) : Prop :=
  e.p_now = none ∨ e.ma20 = none ∨ e.ma60 = none ∨ e.ma150 = none ∨ e.ma200 = none
    ∨ e.bias60 = none ∨ e.p_high = none ∨ e.v_today = none ∨ e.v_avg = none
    ∨ e.rsi14 = none ∨ e.macd = none ∨ e.bench_p_now = none ∨ e.bench_ma150 = none
    ∨ e.stop = none ∨ e.target = none ∨ e.r_val = none ∨ e.kelly_f_capped = none
    ∨ e.trailing_stop = none ∨ e.trailing_stop_hit = none ∨ e.gap_open = none
    ∨ e.gap_filled = none ∨ e.gap_filled_by_close = none ∨ e.island_reversal = none
    ∨ e.vol_spike_defense_broken = none ∨ e.bearish_long_black_engulf = none
    ∨ e.bearish_distribution_day = none ∨ e.bearish_price_up_vol_down = none

/-! ## laowang.py : price bars, gaps, islands, omens

A pandas OHLCV frame becomes a `List Bar` ordered by date ascending; the
timestamp index becomes `date : ℤ` (a calendar-day ordinal), so pandas
`(d1 - d2).days` is `d1 - d2`.  Python indexing `df.iloc[i]` becomes `getBar`,
total with a default bar, used only at indices the loops actually visit. -/

structure Bar where
  open_ : ℚ
  high : ℚ
  low : ℚ
  close : ℚ
  volume : ℚ
  date : ℤ
  deriving DecidableEq, Repr, Inhabited

/-- `df.iloc[i]` (row access by position). -/
def getBar (df : List Bar) (i : ℕ) : Bar := df.getD i default

/-- `GapEvent` dataclass from laowang.py (dates as day ordinals). -/
structure GapEvent where
  kind : String
  date : ℤ
  prev_date : ℤ
  lower : ℚ
  upper : ℚ
  deriving DecidableEq, Repr

/-- `GapStatus` dataclass from laowang.py. -/
structure GapStatus where
  last_gap : Option GapEvent
  lookback_days : ℕ
  is_expired : Option Bool
  is_filled_by_close : Option Bool
  fill_date_by_close : Option ℤ
  fill_close_by_close : Option ℚ
  reclaim_level : Option ℚ
  deriving DecidableEq, Repr

/-- The no-gap `GapStatus` returned on the early exits of `detect_last_gap`. -/
def emptyGapStatus (lookback_days : ℕ) : GapStatus :=
  ⟨none, lookback_days, none, none, none, none, none⟩

/-- `df = hist.tail(max(lookback_days + 2, 10))` in `detect_last_gap`. -/
def gapTail (hist : List Bar) (lookback_days : ℕ) : List Bar :=
  hist.drop (hist.length - max (lookback_days + 2) 10)

/-- Strict gap up at row `i`: `Low[i] > High[i-1]`. -/
def gapUpAt (df : List Bar) (i : ℕ) : Bool :=
  (getBar df (i - 1)).high < (getBar df i).low

/-- Strict gap down at row `i`: `High[i] < Low[i-1]`. -/
def gapDownAt (df : List Bar) (i : ℕ) : Bool :=
  (getBar df i).high < (getBar df (i - 1)).low

/-- The `GapEvent` built for a strict gap up at row `i`. -/
def gapUpEventAt (df : List Bar) (i : ℕ) : GapEvent :=
  ⟨"GAP_UP", (getBar df i).date, (getBar df (i - 1)).date,
    (getBar df (i - 1)).high, (getBar df i).low⟩

/-- The `GapEvent` built for a strict gap down at row `i`. -/
def gapDownEventAt (df : List Bar) (i : ℕ) : GapEvent :=
  ⟨"GAP_DOWN", (getBar df i).date, (getBar df (i - 1)).date,
    (getBar df i).high, (getBar df (i - 1)).low⟩

/-- One iteration of the gap scan: the event recorded at row `i`, if any
(`if lo > prev_high ... elif hi < prev_low ...`). -/
def gapEventAt (df : List Bar) (i : ℕ) : Option GapEvent :=
  if gapUpAt df i then some (gapUpEventAt df i)
  else if gapDownAt df i then some (gapDownEventAt df i)
  else none

/-- `start = max(1, len(df) - lookback_days)` in `detect_last_gap`. -/
def scanStart (df : List Bar) (lookback_days : ℕ) : ℕ :=
  max 1 (df.length - lookback_days)

/-- The `for i in range(start, len(df))` loop of `detect_last_gap`: later
matches overwrite earlier ones. -/
def lastGapScan (df : List Bar) (lookback_days : ℕ) : Option (ℕ × GapEvent) :=
  (List.range' (scanStart df lookback_days)
      (df.length - scanStart df lookback_days)).foldl
    (fun acc i =>
      match gapEventAt df i with
      | some g => some (i, g)
      | none => acc) none

/-- GAP_UP fill scan: first row after `i` whose close is ≤ `fill_level`. -/
def fillScanUp (df : List Bar) (i : ℕ) (fill_level : ℚ) : Option ℕ :=
  (List.range' (i + 1) (df.length - (i + 1))).find?
    (fun j => (getBar df j).close ≤ fill_level)

/-- GAP_DOWN fill scan: first row after `i` whose close is ≥ `fill_level`. -/
def fillScanDown (df : List Bar) (i : ℕ) (fill_level : ℚ) : Option ℕ :=
  (List.range' (i + 1) (df.length - (i + 1))).find?
    (fun j => fill_level ≤ (getBar df j).close)

/-- `detect_last_gap` from laowang.py (`gap_threshold` is ignored by the
source, kept for signature fidelity). -/
def detect_last_gap (hist : List Bar) (gap_threshold : ℚ) (lookback_days : ℕ) :
    GapStatus :=
  let _ := gap_threshold
  let df := gapTail hist lookback_days
  if df.length < 2 then emptyGapStatus lookback_days
  else
    match lastGapScan df lookback_days with
    | none => emptyGapStatus lookback_days
    | some (i, g) =>
      if (lookback_days : ℤ) < (getBar df (df.length - 1)).date - g.date then
        { emptyGapStatus lookback_days with is_expired := some true }
      else if g.kind == "GAP_UP" then
        match fillScanUp df i g.lower with
        | some j =>
          ⟨some g, lookback_days, some false, some true, some (getBar df j).date,
            some (getBar df j).close, some g.upper⟩
        | none =>
          ⟨some g, lookback_days, some false, some false, none, none, some g.upper⟩
      else
        match fillScanDown df i g.upper with
        | some j =>
          ⟨some g, lookback_days, some false, some true, some (getBar df j).date,
            some (getBar df j).close, none⟩
        | none => ⟨some g, lookback_days, some false, some false, none, none, none⟩

/-- `ReclaimSignal` dataclass from laowang.py. -/
structure ReclaimSignal where
  is_reclaim : Option Bool
  reclaim_date : Option ℤ
  days_since_fill : Option ℕ
  reclaim_level : Option ℚ
  deriving DecidableEq, Repr

/-- The `for i, idx in enumerate(df.index)` lookup of the fill date's position
in `gap_reclaim_within_3_days` (first row with the given date). -/
def findDateIdx (hist : List Bar) (fd : ℤ) : Option ℕ :=
  (List.range' 0 hist.length).find? (fun i => (getBar hist i).date == fd)

/-- `gap_reclaim_within_3_days` from laowang.py. -/
def gap_reclaim_within_3_days (gap : GapStatus) (hist : List Bar) : ReclaimSignal :=
  match gap.last_gap, gap.is_filled_by_close with
  | none, _ => ⟨none, none, none, none⟩
  | some _, none => ⟨none, none, none, none⟩
  | some g, some filled =>
    if hist.isEmpty then ⟨none, none, none, none⟩
    else if ¬ filled then ⟨some false, none, none, none⟩
    else
      match gap.fill_date_by_close with
      | none => ⟨none, none, none, none⟩
      | some fd =>
        if g.kind ≠ "GAP_UP" then ⟨some false, none, none, none⟩
        else
          let reclaim_level := g.upper
          match findDateIdx hist fd with
          | none => ⟨none, none, none, some reclaim_level⟩
          | some fill_pos =>
            match ([1, 2, 3].find? (fun d =>
                decide (fill_pos + d < hist.length)
                  && decide (reclaim_level ≤ (getBar hist (fill_pos + d)).close))) with
            | some d =>
              ⟨some true, some (getBar hist (fill_pos + d)).date, some d,
                some reclaim_level⟩
            | none => ⟨some false, none, none, some reclaim_level⟩

/-- `IslandReversal` dataclass from laowang.py. -/
structure IslandReversal where
  start_gap_up : GapEvent
  end_gap_down : GapEvent
  deriving DecidableEq, Repr

/-- `df = hist.tail(max(lookback_days + 2, 20))` in `detect_island_reversal`. -/
def islandTail (hist : List Bar) (lookback_days : ℕ) : List Bar :=
  hist.drop (hist.length - max (lookback_days + 2) 20)

/-- The inner candidate rows `range(start_j, end_j + 1)` with
`start_j = i + min_separation_days`, `end_j = min(len(df)-1, i + max_separation_days)`. -/
def islandInnerRange (df : List Bar) (i min_sep max_sep : ℕ) : List ℕ :=
  List.range' (i + min_sep) (min (df.length - 1) (i + max_sep) + 1 - (i + min_sep))

/-- Bearish inner-loop test: strict gap down at `j` whose upper edge
(`Low[j-1]`) is ≥ the up gap's lower edge (`High[i-1]`). -/
def bearishIslandQual (df : List Bar) (i j : ℕ) : Bool :=
  gapDownAt df j && decide ((gapUpEventAt df i).lower ≤ (gapDownEventAt df j).upper)

/-- `detect_island_reversal` from laowang.py: nested scan keeping the latest
qualifying GAP_UP → GAP_DOWN pair (`gap_threshold` ignored by the source). -/
def detect_island_reversal (hist : List Bar) (gap_threshold : ℚ)
    (min_separation_days max_separation_days lookback_days : ℕ) :
    Option IslandReversal :=
  let _ := gap_threshold
  let df := islandTail hist lookback_days
  if df.length < 3 then none
  else
    (List.range' 1 (df.length - 1 - 1)).foldl
      (fun latest i =>
        if ¬ gapUpAt df i then latest
        else
          (islandInnerRange df i min_separation_days max_separation_days).foldl
            (fun lat j =>
              if bearishIslandQual df i j then
                some ⟨gapUpEventAt df i, gapDownEventAt df j⟩
              else lat) latest) none

/-- Bullish inner-loop test, the mirror of `bearishIslandQual`: strict gap up
at `j` whose lower edge (`High[j-1]`) is ≤ the down gap's upper edge
(`Low[i-1]`). -/
def bullishIslandQual (df : List Bar) (i j : ℕ) : Bool :=
  gapUpAt df j && decide ((gapUpEventAt df j).lower ≤ (gapDownEventAt df i).upper)

/-- Modelled from the spec: `detect_island_reversal_bullish` is imported and
exercised by the repository's tests but its definition is not under src/; the
spec describes it as the exact mirror of `detect_island_reversal` (a GAP_DOWN
followed within the separation window by a GAP_UP whose zone returns into the
down gap's zone, latest qualifying pair kept; the result's `start_gap_up` is
the later GAP_UP and `end_gap_down` the earlier GAP_DOWN, per the field access
in the tests). -/
def detect_island_reversal_bullish (hist : List Bar) (gap_threshold : ℚ)
    (min_separation_days max_separation_days lookback_days : ℕ) :
    Option IslandReversal :=
  let _ := gap_threshold
  let df := islandTail hist lookback_days
  if df.length < 3 then none
  else
    (List.range' 1 (df.length - 1 - 1)).foldl
      (fun latest i =>
        if ¬ gapDownAt df i then latest
        else
          (islandInnerRange df i min_separation_days max_separation_days).foldl
            (fun lat j =>
              if bullishIslandQual df i j then
                some ⟨gapUpEventAt df j, gapDownEventAt df i⟩
              else lat) latest) none

/-- `BearishOmens` dataclass from laowang.py. -/
structure BearishOmens where
  long_black_engulf : Option Bool
  price_up_vol_down : Option Bool
  distribution_day : Option Bool
  deriving DecidableEq, Repr

/-- `bearish_omens` from laowang.py.  `vavg_latest` models
`rolling(window, min_periods=window).mean().shift(1)` at the last row: the
mean of the `window` volumes ending at the second-to-last row, defined only
when at least `window + 1` rows exist. -/
def bearish_omens (hist : List Bar) (vol_avg_window : ℕ) : BearishOmens :=
  if hist.length < 2 then ⟨none, none, none⟩
  else
    let b0 := getBar hist (hist.length - 1)
    let b1 := getBar hist (hist.length - 2)
    let rng0 := b0.high - b0.low
    let body0 := b0.open_ - b0.close
    let long_black := decide (b0.close < b0.open_) && decide (0 < rng0)
      && decide ((3 : ℚ)/5 ≤ body0 / rng0)
    let engulf := decide (b0.close < b1.open_) && decide (b1.close < b0.open_)
    let long_black_engulf := long_black && engulf
    let price_up_vol_down := decide (b1.close < b0.close) && decide (b0.volume < b1.volume)
    let vavg_latest : Option ℚ :=
      if vol_avg_window + 1 ≤ hist.length then
        some ((((hist.drop (hist.length - 1 - vol_avg_window)).take vol_avg_window).map
            Bar.volume).sum / vol_avg_window)
      else none
    let distribution_day := decide (b0.close < b1.close)
      && (match vavg_latest with
          | some va => decide ((6/5) * va ≤ b0.volume)
          | none => false)
    ⟨some long_black_engulf, some price_up_vol_down, some distribution_day⟩

/-! ## Auxiliary definitions for the proofs and witnesses -/

instance : IsTrans Bar (fun a b => a.date < b.date) :=
  ⟨fun _ _ _ h1 h2 => lt_trans h1 h2⟩

/-- Dates strictly ascending (executable check). -/
def datesSorted : List Bar → Bool
  | [] => true
  | [_] => true
  | a :: b :: rest => decide (a.date < b.date) && datesSorted (b :: rest)

/-- Well-formedness used by the gap claims: dates strictly ascending. -/
def DatesStrictMono (hist : List Bar) : Prop :=
  datesSorted hist = true

instance (hist : List Bar) : Decidable (DatesStrictMono hist) :=
  inferInstanceAs (Decidable (datesSorted hist = true))

/-- First row after `j` (within `df`) whose close is at or below `L`. -/
def IsFirstFill (df : List Bar) (j : ℕ) (L : ℚ) (m₀ : ℕ) : Prop :=
  j < m₀ ∧ m₀ < df.length ∧ (getBar df m₀).close ≤ L
    ∧ ∀ m, j < m → m < m₀ → ¬ ((getBar df m).close ≤ L)

/-- Concrete evidence record used by the C1 witness: every required field is
present and favorable except `bearish_price_up_vol_down`, which is None. -/
def c1Evidence : RequiredEvidence :=
  { p_now := some 110, ma20 := some 100, ma60 := some 100, ma150 := some 100
    ma200 := some 100, bias60 := some 1, p_high := some 120, v_today := some 1000
    v_avg := some 500, rsi14 := some 50, macd := some 1, bench_p_now := some 110
    bench_ma150 := some 100, stop := some 95, target := some 120, r_val := some 4
    kelly_f_capped := some (1/10), trailing_stop := some 114
    trailing_stop_hit := some false, gap_open := some false, gap_filled := some true
    gap_filled_by_close := some true, island_reversal := some false
    vol_spike_defense_broken := some false, bearish_long_black_engulf := some false
    bearish_distribution_day := some false, bearish_price_up_vol_down := none }

def gapWitnessHist : List Bar :=
  [⟨9.5, 10, 9, 9.8, 100, 0⟩,
   ⟨10.6, 11, 10.6, 10.9, 100, 1⟩,
   ⟨11.6, 12, 11.6, 11.9, 100, 2⟩,
   ⟨11.8, 12.2, 11.5, 12, 100, 3⟩]

def fillWitnessHist : List Bar :=
  [⟨9.5, 10, 9, 9.8, 100, 0⟩,
   ⟨10.6, 11, 10.6, 10.9, 110, 1⟩,
   ⟨10.2, 10.7, 9.9, 9.95, 120, 2⟩,
   ⟨10.5, 10.8, 10.4, 10.7, 130, 3⟩]

def bearIslandHist : List Bar :=
  [⟨9.5, 10, 9, 9.8, 100, 0⟩,
   ⟨10.8, 11.2, 10.8, 11, 110, 1⟩,
   ⟨11, 11.3, 10.9, 11.1, 105, 2⟩,
   ⟨10.9, 11, 10.7, 10.8, 108, 3⟩,
   ⟨9.6, 9.7, 9.3, 9.4, 120, 4⟩]

def bullIslandHist : List Bar :=
  [⟨10, 10.5, 9.9, 10.1, 100, 0⟩,
   ⟨9, 9.1, 8.8, 8.9, 110, 1⟩,
   ⟨8.9, 9, 8.7, 8.8, 105, 2⟩,
   ⟨8.8, 9.2, 8.8, 9.1, 108, 3⟩,
   ⟨9.8, 10.2, 9.7, 10, 120, 4⟩]

def omenShortHist : List Bar :=
  [⟨100, 101, 99, 100, 100, 0⟩,
   ⟨100, 101, 99, 100, 100, 1⟩,
   ⟨100, 101, 99, 99, 100, 2⟩]

/-! ## Supporting lemmas -/

theorem round4_intDiv (m : ℤ) : round4 ((m : ℚ) / 10000) = (m : ℚ) / 10000 := by
  unfold round4
  rw [div_mul_cancel₀ _ (by norm_num : (10000 : ℚ) ≠ 0), round_intCast]

theorem round4_shape (x : ℚ) : ∃ m : ℤ, round4 x = (m : ℚ) / 10000 := ⟨round (x * 10000), rfl⟩

theorem mkRuleComponent_name (k : WinRateComponentKind) (n : String) (d : ℚ) (cond : Bool)
    (miss : List String) (note : Option String) :
    (mkRuleComponent k n d cond miss note).name = n := by
  unfold mkRuleComponent
  split_ifs <;> rfl

theorem mkRuleComponent_status_ne_applied (k : WinRateComponentKind) (n : String) (d : ℚ)
    (miss : List String) (note : Option String) {cond : Bool} (h : cond = false) :
    (mkRuleComponent k n d cond miss note).status ≠ .APPLIED := by
  unfold mkRuleComponent
  subst h
  split_ifs <;> simp_all



/-! ## Claim theorems for the rules/cli layer -/

theorem clamp_round4_mem (x : ℚ) :
    15/100 ≤ round4 (if 85/100 < (if round4 x < 15/100 then (15:ℚ)/100 else round4 x)
        then (85:ℚ)/100 else if round4 x < 15/100 then (15:ℚ)/100 else round4 x)
    ∧ round4 (if 85/100 < (if round4 x < 15/100 then (15:ℚ)/100 else round4 x)
        then (85:ℚ)/100 else if round4 x < 15/100 then (15:ℚ)/100 else round4 x) ≤ 85/100 := by
  obtain ⟨m, hm⟩ := round4_shape x
  have h15 : round4 ((15:ℚ)/100) = 15/100 := by
    have h : (15:ℚ)/100 = ((1500:ℤ):ℚ)/10000 := by norm_num
    rw [h, round4_intDiv]
  have h85 : round4 ((85:ℚ)/100) = 85/100 := by
    have h : (85:ℚ)/100 = ((8500:ℤ):ℚ)/10000 := by norm_num
    rw [h, round4_intDiv]
  have hx : round4 (round4 x) = round4 x := by
    rw [hm]; exact round4_intDiv m
  split_ifs with h1 h2 h3 <;> constructor <;> simp only [h15, h85, hx] <;> linarith

/-- C2: in `choose_win_rate_breakdown` (at the default clamp bounds used
throughout the repository), if any of p_now, ma150, ma50, ma200 is None then
base, w_raw and w_clamped are all None and the bonus and penalty totals are 0;
otherwise base = 0.60 exactly when p_now > ma150 and ma50 > ma200 (else 0.30)
and the final w_clamped always lies in [0.15, 0.85]. -/
theorem C2_winrate_gate_and_clamp
    (p_now ma150 ma50 ma200 vol_ratio ma20_slope : Option ℚ) (san_yang : Option Bool)
    (rsi14 : Option ℚ) (zone : Option String) (bias60 : Option ℚ)
    (go gf gfb : Option Bool) (gd : Option String)
    (irb irl vsd ble bdd bpv ssw : Option Bool) :
    ((p_now = none ∨ ma150 = none ∨ ma50 = none ∨ ma200 = none) →
      (choose_win_rate_breakdown p_now ma150 ma50 ma200 vol_ratio ma20_slope san_yang
          rsi14 zone bias60 go gf gfb gd irb irl vsd ble bdd bpv ssw
          (15/100) (85/100)).base = none ∧
      (choose_win_rate_breakdown p_now ma150 ma50 ma200 vol_ratio ma20_slope san_yang
          rsi14 zone bias60 go gf gfb gd irb irl vsd ble bdd bpv ssw
          (15/100) (85/100)).w_raw = none ∧
      (choose_win_rate_breakdown p_now ma150 ma50 ma200 vol_ratio ma20_slope san_yang
          rsi14 zone bias60 go gf gfb gd irb irl vsd ble bdd bpv ssw
          (15/100) (85/100)).w_clamped = none ∧
      (choose_win_rate_breakdown p_now ma150 ma50 ma200 vol_ratio ma20_slope san_yang
          rsi14 zone bias60 go gf gfb gd irb irl vsd ble bdd bpv ssw
          (15/100) (85/100)).bonus_total = 0 ∧
      (choose_win_rate_breakdown p_now ma150 ma50 ma200 vol_ratio ma20_slope san_yang
          rsi14 zone bias60 go gf gfb gd irb irl vsd ble bdd bpv ssw
          (15/100) (85/100)).penalty_total = 0)
    ∧ (∀ p m150 m50 m200 : ℚ, p_now = some p → ma150 = some m150 → ma50 = some m50 →
        ma200 = some m200 →
        (choose_win_rate_breakdown p_now ma150 ma50 ma200 vol_ratio ma20_slope san_yang
            rsi14 zone bias60 go gf gfb gd irb irl vsd ble bdd bpv ssw
            (15/100) (85/100)).base
          = some (if m150 < p ∧ m200 < m50 then 60/100 else 30/100) ∧
        ∃ w, (choose_win_rate_breakdown p_now ma150 ma50 ma200 vol_ratio ma20_slope san_yang
            rsi14 zone bias60 go gf gfb gd irb irl vsd ble bdd bpv ssw
            (15/100) (85/100)).w_clamped = some w ∧ 15/100 ≤ w ∧ w ≤ 85/100) := by
  constructor
  · intro h
    cases p_now <;> cases ma150 <;> cases ma50 <;> cases ma200 <;>
      simp_all [choose_win_rate_breakdown]
  · rintro p m150 m50 m200 rfl rfl rfl rfl
    constructor
    · by_cases h1 : m150 < p <;> by_cases h2 : m200 < m50 <;>
        simp [choose_win_rate_breakdown, h1, h2]
    · exact ⟨_, rfl, (clamp_round4_mem _).1, (clamp_round4_mem _).2⟩

theorem C2_winrate_gate_and_clamp_witness :
    ((choose_win_rate_breakdown none none none none none none none none none none
        none none none none none none none none none none none
        (15/100) (85/100)).base = none ∧
      (choose_win_rate_breakdown none none none none none none none none none none
        none none none none none none none none none none none
        (15/100) (85/100)).w_raw = none ∧
      (choose_win_rate_breakdown none none none none none none none none none none
        none none none none none none none none none none none
        (15/100) (85/100)).w_clamped = none ∧
      (choose_win_rate_breakdown none none none none none none none none none none
        none none none none none none none none none none none
        (15/100) (85/100)).bonus_total = 0 ∧
      (choose_win_rate_breakdown none none none none none none none none none none
        none none none none none none none none none none none
        (15/100) (85/100)).penalty_total = 0)
    ∧ ((choose_win_rate_breakdown (some 110) (some 100) (some 210) (some 200) none none
          none none none none none none none none none none none none none none none
          (15/100) (85/100)).base
        = some (if (100:ℚ) < 110 ∧ (200:ℚ) < 210 then 60/100 else 30/100) ∧
      ∃ w, (choose_win_rate_breakdown (some 110) (some 100) (some 210) (some 200) none none
          none none none none none none none none none none none none none none none
          (15/100) (85/100)).w_clamped = some w ∧ 15/100 ≤ w ∧ w ≤ 85/100) :=
  ⟨(C2_winrate_gate_and_clamp none none none none none none none none none none
      none none none none none none none none none none none).1 (Or.inl rfl),
   (C2_winrate_gate_and_clamp (some 110) (some 100) (some 210) (some 200) none none
      none none none none none none none none none none none none none none none).2
      110 100 210 200 rfl rfl rfl rfl⟩

/-- C1: whenever any of the 27 `required` evidence fields is None, or R is
undefined or below min_rr, the final rating computed by `build_report` is the
"insufficient data / no conclusion" label, regardless of all other inputs. -/
theorem C1_evidence_gate
    (e : RequiredEvidence) (min_rr : ℚ) (regime : String) (san_yang : Option Bool)
    (vol_attack : Bool) (vol_ratio : Option ℚ) (bench_regime : String)
    (h : anyRequiredMissing e ∨ e.r_val = none ∨ ∃ r, e.r_val = some r ∧ r < min_rr) :
    report_rating e min_rr regime san_yang vol_attack vol_ratio bench_regime
      = "⛔ 資料不足（禁止結論）" := by
  have hb : (evidence_ok e && rr_ok e.r_val min_rr) = false := by
    rcases h with h | h | ⟨r, hr, hlt⟩
    · unfold anyRequiredMissing at h
      rcases h with h|h|h|h|h|h|h|h|h|h|h|h|h|h|h|h|h|h|h|h|h|h|h|h|h|h|h <;>
        simp [evidence_ok, h]
    · simp [rr_ok, h]
    · simp [rr_ok, hr, not_le.mpr hlt]
  rw [report_rating, hb]
  rfl

theorem C1_evidence_gate_witness :
    report_rating c1Evidence 0 "BULL" (some true) true (some 2) "BULL"
      = "⛔ 資料不足（禁止結論）" :=
  C1_evidence_gate c1Evidence 0 "BULL" (some true) true (some 2) "BULL"
    (Or.inl (by simp [anyRequiredMissing, c1Evidence]))

/-- C3 counterexample: with entry=100, MA20=99 (< entry), stop_loss_pct=0.05
and p_high=100, the computed R is ≤ 0 and `_stop_target` returns the percentage
stop 95 rather than max(MA20, percentage stop) = 99, so the claim that the
returned stop is always max(MA20, percentage stop) whenever MA20 < entry is
false. -/
theorem C3_stop_rule_counterexample :
    ((99:ℚ) < 100) ∧
    stop_target (some 100) (some 99) (some 100) (5/100) 0
      = .ok ⟨some (100 * (1 - 5/100)), some 100, none,
          "INVALID_TARGET_LE_ENTRY_USE_PCT_STOP", some (100 * (1 - 5/100))⟩ ∧
    (100 * (1 - (5:ℚ)/100)) ≠ max 99 (100 * (1 - 5/100)) := by
  with_unfolding_all decide

/-- C3 amended: the percentage stop is entry × (1 − stop_loss_pct); when MA20 is
defined and MA20 < entry the returned stop is max(MA20, percentage stop),
EXCEPT in the INVALID_TARGET_LE_ENTRY branch (computed R ≤ 0), where the stop
is forced back to the percentage stop; when MA20 is undefined or MA20 ≥ entry
the returned stop is exactly the percentage stop in every branch. -/
theorem C3_stop_rule_amended (entry stop_loss_pct min_rr : ℚ) (ma20 p_high : Option ℚ)
    (h1 : 0 < stop_loss_pct) (h2 : stop_loss_pct < 1/2) (h3 : 0 ≤ min_rr) :
    ∃ res, stop_target (some entry) ma20 p_high stop_loss_pct min_rr = .ok res ∧
      res.stop_from_pct = some (entry * (1 - stop_loss_pct)) ∧
      (∀ m, ma20 = some m → m < entry →
        res.stop = some (max m (entry * (1 - stop_loss_pct)))
          ∨ (res.target_mode = "INVALID_TARGET_LE_ENTRY_USE_PCT_STOP"
              ∧ res.stop = some (entry * (1 - stop_loss_pct)))) ∧
      ((ma20 = none ∨ ∃ m, ma20 = some m ∧ entry ≤ m) →
        res.stop = some (entry * (1 - stop_loss_pct))) := by
  have hmr : ¬ min_rr < 0 := not_lt.mpr h3
  cases p_high with
  | none =>
    simp only [stop_target, hmr, if_false]
    refine ⟨_, rfl, rfl, ?_, ?_⟩
    · rintro m rfl hlt
      left
      simp [stopOf, not_le.mpr hlt]
    · rintro (rfl | ⟨m, rfl, hge⟩)
      · simp [stopOf]
      · simp [stopOf, hge]
  | some ph =>
    simp only [stop_target, hmr, if_false]
    split_ifs with hd hr hmin
    · refine ⟨_, rfl, rfl, ?_, ?_⟩
      · rintro m rfl hlt
        left
        simp [stopOf, not_le.mpr hlt]
      · rintro (rfl | ⟨m, rfl, hge⟩)
        · simp [stopOf]
        · simp [stopOf, hge]
    · refine ⟨_, rfl, rfl, ?_, ?_⟩
      · rintro m rfl hlt
        right
        exact ⟨rfl, rfl⟩
      · rintro _
        rfl
    · refine ⟨_, rfl, rfl, ?_, ?_⟩
      · rintro m rfl hlt
        left
        simp [stopOf, not_le.mpr hlt]
      · rintro (rfl | ⟨m, rfl, hge⟩)
        · simp [stopOf]
        · simp [stopOf, hge]
    · refine ⟨_, rfl, rfl, ?_, ?_⟩
      · rintro m rfl hlt
        left
        simp [stopOf, not_le.mpr hlt]
      · rintro (rfl | ⟨m, rfl, hge⟩)
        · simp [stopOf]
        · simp [stopOf, hge]

theorem C3_stop_rule_amended_witness :
    ∃ res, stop_target (some 100) (some 105) (some 101) (5/100) 0 = .ok res ∧
      res.stop_from_pct = some (100 * (1 - 5/100)) ∧
      (∀ m, (some 105 : Option ℚ) = some m → m < 100 →
        res.stop = some (max m (100 * (1 - 5/100)))
          ∨ (res.target_mode = "INVALID_TARGET_LE_ENTRY_USE_PCT_STOP"
              ∧ res.stop = some (100 * (1 - 5/100)))) ∧
      (((some 105 : Option ℚ) = none ∨ ∃ m, (some 105 : Option ℚ) = some m ∧ 100 ≤ m) →
        res.stop = some (100 * (1 - 5/100))) :=
  C3_stop_rule_amended 100 (5/100) 0 (some 105) (some 101)
    (by norm_num) (by norm_num) le_rfl

/-- C4: whenever entry − stop > 0 and the R computed from the 52-week-high
target satisfies 0 < R < min_rr, `_stop_target` overrides the target to
entry + min_rr × (entry − stop), recomputes R to exactly min_rr and flags the
result with target_mode "MIN_RR". -/
theorem C4_min_rr_override (entry stop_loss_pct min_rr ph : ℚ) (ma20 : Option ℚ)
    (h0 : 0 ≤ min_rr)
    (hden : 0 < entry - stopOf entry ma20 (entry * (1 - stop_loss_pct)))
    (hrpos : 0 < (ph - entry) / (entry - stopOf entry ma20 (entry * (1 - stop_loss_pct))))
    (hrlt : (ph - entry) / (entry - stopOf entry ma20 (entry * (1 - stop_loss_pct))) < min_rr) :
    stop_target (some entry) ma20 (some ph) stop_loss_pct min_rr
      = .ok ⟨some (stopOf entry ma20 (entry * (1 - stop_loss_pct))),
          some (entry + min_rr * (entry - stopOf entry ma20 (entry * (1 - stop_loss_pct)))),
          some min_rr, "MIN_RR", some (entry * (1 - stop_loss_pct))⟩ := by
  simp only [stop_target, not_lt.mpr h0, if_false]
  rw [if_neg (not_le.mpr hden), if_neg (not_le.mpr hrpos), if_pos hrlt]

theorem C4_min_rr_override_witness :
    stop_target (some 100) none (some 101) (5/100) (5/2)
      = .ok ⟨some (stopOf 100 none (100 * (1 - 5/100))),
          some (100 + (5/2) * (100 - stopOf 100 none (100 * (1 - 5/100)))),
          some (5/2), "MIN_RR", some (100 * (1 - 5/100))⟩ :=
  C4_min_rr_override 100 (5/100) (5/2) 101 none
    (by norm_num) (by norm_num [stopOf]) (by norm_num [stopOf]) (by norm_num [stopOf])

/-- C7: the Kelly fraction follows f_raw = (W×(R+1) − 1)/R with the capped
fraction clamp(f_raw, 0, cap), hence f_capped ∈ [0, cap] and f_capped = 0
whenever f_raw ≤ 0; and the report-level Kelly pair is computed only when W,
p_now, stop, target and R are all defined. -/
theorem C7_kelly_clamp (entry stop target w cap : ℚ)
    (hes : stop < entry) (hte : entry < target) (hw0 : 0 ≤ w) (hw1 : w ≤ 1) (hcap : 0 ≤ cap) :
    (∃ plan, kelly entry stop target w cap = .ok plan ∧
      plan.r = (target - entry) / (entry - stop) ∧ 0 < plan.r ∧
      plan.f_raw = (w * (plan.r + 1) - 1) / plan.r ∧
      plan.f_capped = max 0 (min cap plan.f_raw) ∧
      0 ≤ plan.f_capped ∧ plan.f_capped ≤ cap ∧
      (plan.f_raw ≤ 0 → plan.f_capped = 0))
    ∧ (∀ wo po so tg ro : Option ℚ,
        (wo = none ∨ po = none ∨ so = none ∨ tg = none ∨ ro = none) →
        kelly_from_report wo po so tg ro cap = (none, none))
    ∧ (∀ w' p' s' t' r' : ℚ,
        kelly_from_report (some w') (some p') (some s') (some t') (some r') cap
          = (some ((w' * (r' + 1) - 1) / r'),
             some (max 0 (min cap ((w' * (r' + 1) - 1) / r'))))) := by
  refine ⟨?_, ?_, ?_⟩
  · have hr : 0 < (target - entry) / (entry - stop) :=
      div_pos (by linarith) (by linarith)
    refine ⟨⟨w, entry, stop, target, (target - entry) / (entry - stop),
        (w * ((target - entry) / (entry - stop) + 1) - 1) / ((target - entry) / (entry - stop)),
        max 0 (min cap ((w * ((target - entry) / (entry - stop) + 1) - 1)
          / ((target - entry) / (entry - stop)))), ""⟩,
      ?_, rfl, hr, rfl, rfl, le_max_left 0 _, max_le hcap (min_le_left _ _), ?_⟩
    · simp only [kelly, not_le.mpr hes, if_false, not_le.mpr hte]
    · intro hf
      exact max_eq_left (le_trans (min_le_right _ _) hf)
  · rintro wo po so tg ro (rfl | rfl | rfl | rfl | rfl) <;>
      first
        | rfl
        | (cases wo <;> first | rfl | (cases po <;> first | rfl | (cases so <;>
            first | rfl | (cases tg <;> rfl))))
  · intro w' p' s' t' r'
    rfl

theorem C7_kelly_clamp_witness :
    (∃ plan, kelly 100 95 110 (3/5) (1/4) = .ok plan ∧
      plan.r = (110 - 100) / (100 - 95) ∧ 0 < plan.r ∧
      plan.f_raw = ((3/5) * (plan.r + 1) - 1) / plan.r ∧
      plan.f_capped = max 0 (min (1/4) plan.f_raw) ∧
      0 ≤ plan.f_capped ∧ plan.f_capped ≤ 1/4 ∧
      (plan.f_raw ≤ 0 → plan.f_capped = 0))
    ∧ (∀ wo po so tg ro : Option ℚ,
        (wo = none ∨ po = none ∨ so = none ∨ tg = none ∨ ro = none) →
        kelly_from_report wo po so tg ro (1/4) = (none, none))
    ∧ (∀ w' p' s' t' r' : ℚ,
        kelly_from_report (some w') (some p') (some s') (some t') (some r') (1/4)
          = (some ((w' * (r' + 1) - 1) / r'),
             some (max 0 (min (1/4) ((w' * (r' + 1) - 1) / r'))))) :=
  C7_kelly_clamp 100 95 110 (3/5) (1/4)
    (by norm_num) (by norm_num) (by norm_num) (by norm_num) (by norm_num)
theorem zone_cases (p_now p_high : Option ℚ) :
    ((rule_35_zone p_now p_high).zone = "安全區" ∨ (rule_35_zone p_now p_high).zone = "觀察區"
      ∨ (rule_35_zone p_now p_high).zone = "接近抄底區" ∨ (rule_35_zone p_now p_high).zone = "跌深區"
      ∨ (rule_35_zone p_now p_high).zone = "MISSING") := by
  cases p_now <;> cases p_high <;> simp only [rule_35_zone] <;> (try split_ifs) <;> simp

theorem value_rule_not_applied
    (p_now ma150 ma50 ma200 vol_ratio ma20_slope : Option ℚ) (san_yang : Option Bool)
    (rsi14 : Option ℚ) (z : String) (bias60 : Option ℚ)
    (go gf gfb : Option Bool) (gd : Option String)
    (irb irl vsd ble bdd bpv ssw : Option Bool) (hz : z ≠ "GOLD") :
    ∀ c ∈ (choose_win_rate_breakdown p_now ma150 ma50 ma200 vol_ratio ma20_slope san_yang
        rsi14 (some z) bias60 go gf gfb gd irb irl vsd ble bdd bpv ssw
        (15/100) (85/100)).components,
      c.name = "價值回歸(35法則GOLD + RSI<30)" → c.status ≠ .APPLIED := by
  have hbeq : (some z == some "GOLD") = false := by simp [hz]
  intro c hc hname
  cases p_now with
  | none =>
    simp only [choose_win_rate_breakdown, List.mem_cons, List.not_mem_nil, or_false] at hc
    rcases hc with rfl
    exact absurd hname (by simp)
  | some p =>
    cases ma150 with
    | none =>
      simp only [choose_win_rate_breakdown, List.mem_cons, List.not_mem_nil, or_false] at hc
      rcases hc with rfl
      exact absurd hname (by simp)
    | some m150 =>
      cases ma50 with
      | none =>
        simp only [choose_win_rate_breakdown, List.mem_cons, List.not_mem_nil, or_false] at hc
        rcases hc with rfl
        exact absurd hname (by simp)
      | some m50 =>
        cases ma200 with
        | none =>
          simp only [choose_win_rate_breakdown, List.mem_cons, List.not_mem_nil,
            or_false] at hc
          rcases hc with rfl
          exact absurd hname (by simp)
        | some m200 =>
          simp only [choose_win_rate_breakdown, List.mem_cons, List.not_mem_nil,
            or_false] at hc
          rcases hc with rfl | rfl | rfl | rfl | rfl | rfl | rfl | rfl | rfl | rfl | rfl | rfl
          · exact absurd hname (by simp)
          · exact absurd hname (by rw [mkRuleComponent_name]; decide)
          · refine mkRuleComponent_status_ne_applied _ _ _ _ _ ?_
            simp only [hbeq, Bool.false_and]
          · exact absurd hname (by rw [mkRuleComponent_name]; decide)
          · exact absurd hname (by rw [mkRuleComponent_name]; decide)
          · exact absurd hname (by rw [mkRuleComponent_name]; decide)
          · exact absurd hname (by rw [mkRuleComponent_name]; decide)
          · exact absurd hname (by rw [mkRuleComponent_name]; decide)
          · exact absurd hname (by rw [mkRuleComponent_name]; decide)
          · exact absurd hname (by rw [mkRuleComponent_name]; decide)
          · exact absurd hname (by rw [mkRuleComponent_name]; decide)
          · exact absurd hname (by rw [mkRuleComponent_name]; decide)

/-- C10: the 35-rule zone label is always one of the four Chinese display
labels or "MISSING" and never "GOLD"; consequently, in the report pipeline
(where the zone string fed to the win-rate engine comes from `_rule_35_zone`),
the +0.20 value-reversion bonus component is never APPLIED for any input. -/
theorem C10_gold_bonus_never_applied
    (p_now p_high ma150 ma50 ma200 vol_ratio ma20_slope : Option ℚ) (san_yang : Option Bool)
    (rsi14 : Option ℚ) (bias60 : Option ℚ)
    (go gf gfb : Option Bool) (gd : Option String)
    (irb irl vsd ble bdd bpv ssw : Option Bool) :
    ((rule_35_zone p_now p_high).zone = "安全區" ∨ (rule_35_zone p_now p_high).zone = "觀察區"
      ∨ (rule_35_zone p_now p_high).zone = "接近抄底區" ∨ (rule_35_zone p_now p_high).zone = "跌深區"
      ∨ (rule_35_zone p_now p_high).zone = "MISSING")
    ∧ (rule_35_zone p_now p_high).zone ≠ "GOLD"
    ∧ (∀ c ∈ (choose_win_rate_breakdown p_now ma150 ma50 ma200 vol_ratio ma20_slope san_yang
          rsi14 (some (rule_35_zone p_now p_high).zone) bias60 go gf gfb gd irb irl vsd ble
          bdd bpv ssw (15/100) (85/100)).components,
        c.name = "價值回歸(35法則GOLD + RSI<30)" → c.status ≠ .APPLIED) := by
  have hz := zone_cases p_now p_high
  have hne : (rule_35_zone p_now p_high).zone ≠ "GOLD" := by
    rcases hz with h | h | h | h | h <;> rw [h] <;> decide
  exact ⟨hz, hne,
    value_rule_not_applied p_now ma150 ma50 ma200 vol_ratio ma20_slope san_yang rsi14
      _ bias60 go gf gfb gd irb irl vsd ble bdd bpv ssw hne⟩


theorem C10_gold_bonus_never_applied_witness :
    (rule_35_zone (some 50) (some 100)).zone ≠ "GOLD" :=
  (C10_gold_bonus_never_applied (some 50) (some 100) none none none none none none
    none none none none none none none none none none none none none).2.1

/-! ## Claim theorems for the pattern-detector layer -/
theorem lastGapStep_none (df : List Bar) (l : List ℕ) (acc : Option (ℕ × GapEvent))
    (h : ∀ k ∈ l, gapEventAt df k = none) :
    l.foldl (fun acc i => match gapEventAt df i with
      | some g => some (i, g) | none => acc) acc = acc := by
  induction l generalizing acc with
  | nil => rfl
  | cons x xs ih =>
    have hx := h x (List.mem_cons_self x xs)
    simp only [List.foldl_cons, hx]
    exact ih acc (fun k hk => h k (List.mem_cons_of_mem x hk))

theorem lastGapScan_eq_last (df : List Bar) (lb j : ℕ) (g : GapEvent)
    (hstart : scanStart df lb ≤ j) (hj : j < df.length)
    (hgj : gapEventAt df j = some g)
    (hlast : ∀ k, j < k → k < df.length → gapEventAt df k = none) :
    lastGapScan df lb = some (j, g) := by
  unfold lastGapScan
  have e0 : df.length - scanStart df lb
      = ((df.length - (j + 1)) + 1) + (j - scanStart df lb) := by omega
  have e1 : List.range' (scanStart df lb) (df.length - scanStart df lb)
      = List.range' (scanStart df lb) (j - scanStart df lb)
        ++ List.range' j ((df.length - (j + 1)) + 1) := by
    rw [e0]
    rw [← List.range'_append_1 (scanStart df lb) (j - scanStart df lb)
      ((df.length - (j + 1)) + 1)]
    congr 1
    congr 1
    omega
  rw [e1, List.foldl_append, List.range'_succ, List.foldl_cons, hgj]
  exact lastGapStep_none df _ _ (fun k hk => by
    have hb := List.mem_range'_1.mp hk
    exact hlast k (by omega) (by omega))

/-- C5: on a well-formed series whose scan window contains two or more strict
gaps, `detect_last_gap` returns the chronologically latest gap (later matches
overwrite earlier ones), and running it again on the same series returns the
same result. -/
theorem C5_last_gap_wins (hist : List Bar) (gap_threshold : ℚ) (lookback_days : ℕ)
    (i j : ℕ) (g : GapEvent)
    (hstart : scanStart (gapTail hist lookback_days) lookback_days ≤ i)
    (hij : i < j) (hj : j < (gapTail hist lookback_days).length)
    (hgi : (gapEventAt (gapTail hist lookback_days) i).isSome = true)
    (hgj : gapEventAt (gapTail hist lookback_days) j = some g)
    (hlast : ∀ k, j < k → k < (gapTail hist lookback_days).length →
      gapEventAt (gapTail hist lookback_days) k = none)
    (hnotexp : (getBar (gapTail hist lookback_days)
        ((gapTail hist lookback_days).length - 1)).date - g.date ≤ (lookback_days : ℤ)) :
    (detect_last_gap hist gap_threshold lookback_days).last_gap = some g
    ∧ detect_last_gap hist gap_threshold lookback_days
        = detect_last_gap hist gap_threshold lookback_days := by
  refine ⟨?_, rfl⟩
  have hscan : lastGapScan (gapTail hist lookback_days) lookback_days = some (j, g) :=
    lastGapScan_eq_last _ _ _ _ (le_trans hstart (le_of_lt hij)) hj hgj hlast
  have hlen : ¬ (gapTail hist lookback_days).length < 2 := by
    have h1 : 1 ≤ scanStart (gapTail hist lookback_days) lookback_days := le_max_left _ _
    omega
  unfold detect_last_gap
  simp only [hlen, if_false, hscan, not_lt.mpr hnotexp, if_neg (not_lt.mpr hnotexp)]
  split
  · split <;> rfl
  · split <;> rfl

theorem find?_range'_eq_some_iff {p : ℕ → Bool} {s n j : ℕ} :
    (List.range' s n).find? p = some j ↔
      (s ≤ j ∧ j < s + n ∧ p j = true ∧ ∀ k, s ≤ k → k < j → p k = false) := by
  induction n generalizing s with
  | zero =>
    simp only [List.range']
    constructor
    · intro h
      cases h
    · rintro ⟨h1, h2, h3, h4⟩
      omega
  | succ n ih =>
    rw [List.range'_succ]
    by_cases hp : p s
    · simp only [List.find?_cons_of_pos _ hp, Option.some_inj]
      constructor
      · rintro rfl
        exact ⟨le_rfl, by omega, hp, fun k hk1 hk2 => by omega⟩
      · rintro ⟨h1, h2, h3, h4⟩
        rcases eq_or_lt_of_le h1 with rfl | hlt
        · rfl
        · exact absurd hp (by simp [h4 s le_rfl hlt])
    · have hp' : p s = false := by simpa using hp
      simp only [List.find?_cons_of_neg _ hp, ih]
      constructor
      · rintro ⟨h1, h2, h3, h4⟩
        refine ⟨by omega, by omega, h3, fun k hk1 hk2 => ?_⟩
        rcases eq_or_lt_of_le hk1 with rfl | hlt
        · exact hp'
        · exact h4 k hlt hk2
      · rintro ⟨h1, h2, h3, h4⟩
        have hsj : s < j := by
          rcases eq_or_lt_of_le h1 with rfl | hlt
          · rw [hp'] at h3
            cases h3
          · exact hlt
        exact ⟨hsj, by omega, h3, fun k hk1 hk2 => h4 k (by omega) hk2⟩

theorem lastGapScan_sound_aux (df : List Bar) (l : List ℕ) (acc : Option (ℕ × GapEvent))
    {j : ℕ} {g : GapEvent}
    (h : l.foldl (fun acc i => match gapEventAt df i with
      | some g => some (i, g) | none => acc) acc = some (j, g)) :
    (j ∈ l ∧ gapEventAt df j = some g) ∨ acc = some (j, g) := by
  induction l generalizing acc with
  | nil => exact Or.inr h
  | cons x xs ih =>
    rw [List.foldl_cons] at h
    rcases ih _ h with ⟨hmem, hg⟩ | hstep
    · exact Or.inl ⟨List.mem_cons_of_mem x hmem, hg⟩
    · cases hgx : gapEventAt df x with
      | some gx =>
        rw [hgx] at hstep
        simp only [Option.some_inj, Prod.mk.injEq] at hstep
        obtain ⟨rfl, rfl⟩ := hstep
        exact Or.inl ⟨List.mem_cons_self x xs, hgx⟩
      | none =>
        rw [hgx] at hstep
        exact Or.inr hstep

theorem lastGapScan_sound (df : List Bar) (lb : ℕ) {j : ℕ} {g : GapEvent}
    (h : lastGapScan df lb = some (j, g)) :
    gapEventAt df j = some g ∧ scanStart df lb ≤ j ∧ j < df.length := by
  rcases lastGapScan_sound_aux df _ none h with ⟨hmem, hg⟩ | hacc
  · have hb := List.mem_range'_1.mp hmem
    exact ⟨hg, hb.1, by omega⟩
  · cases hacc

theorem getBar_drop (l : List Bar) (k i : ℕ) :
    getBar (l.drop k) i = getBar l (k + i) := by
  simp [getBar, List.getElem?_drop]

theorem datesSorted_iff_chain' (hist : List Bar) :
    datesSorted hist = true ↔ List.Chain' (fun a b => a.date < b.date) hist := by
  match hist with
  | [] => simp [datesSorted]
  | [a] => simp [datesSorted]
  | a :: b :: rest =>
    rw [List.chain'_cons, ← datesSorted_iff_chain' (b :: rest)]
    simp [datesSorted, and_comm]

theorem getBar_eq_get {l : List Bar} {i : ℕ} (h : i < l.length) :
    getBar l i = l.get ⟨i, h⟩ := by
  simp [getBar, List.getElem?_eq_getElem h, List.get_eq_getElem]

theorem dates_lt_of_mono {hist : List Bar} (h : DatesStrictMono hist) {i j : ℕ}
    (hij : i < j) (hj : j < hist.length) :
    (getBar hist i).date < (getBar hist j).date := by
  have hp : List.Pairwise (fun a b => a.date < b.date) hist :=
    List.chain'_iff_pairwise.mp ((datesSorted_iff_chain' hist).mp h)
  have hg := List.pairwise_iff_get.mp hp ⟨i, lt_trans hij hj⟩ ⟨j, hj⟩ hij
  rwa [getBar_eq_get (lt_trans hij hj), getBar_eq_get hj]

theorem findDateIdx_of_mono {hist : List Bar} (h : DatesStrictMono hist) {p : ℕ}
    (hp : p < hist.length) :
    findDateIdx hist (getBar hist p).date = some p := by
  unfold findDateIdx
  rw [find?_range'_eq_some_iff]
  refine ⟨Nat.zero_le p, by omega, by simp, fun k hk1 hk2 => ?_⟩
  have hlt := dates_lt_of_mono h hk2 hp
  simp only [beq_eq_false_iff_ne, ne_eq]
  exact fun he => absurd he (ne_of_lt hlt)

theorem fillScanUp_eq_some_iff {df : List Bar} {j m : ℕ} {L : ℚ} :
    fillScanUp df j L = some m ↔ IsFirstFill df j L m := by
  unfold fillScanUp IsFirstFill
  rw [find?_range'_eq_some_iff]
  constructor
  · rintro ⟨h1, h2, h3, h4⟩
    refine ⟨by omega, by omega, by simpa using h3, fun k hk1 hk2 => ?_⟩
    have := h4 k (by omega) hk2
    simpa using this
  · rintro ⟨h1, h2, h3, h4⟩
    refine ⟨by omega, by omega, by simpa using h3, fun k hk1 hk2 => ?_⟩
    have := h4 k (by omega) hk2
    simpa using this

theorem isFirstFill_unique {df : List Bar} {j : ℕ} {L : ℚ} {m₁ m₂ : ℕ}
    (h1 : IsFirstFill df j L m₁) (h2 : IsFirstFill df j L m₂) : m₁ = m₂ := by
  by_contra hne
  rcases Nat.lt_or_ge m₁ m₂ with hlt | hge
  · exact h2.2.2.2 m₁ h1.1 hlt h1.2.2.1
  · exact h1.2.2.2 m₂ h2.1 (by omega) h2.2.2.1

theorem fillScanUp_none_iff {df : List Bar} {j : ℕ} {L : ℚ} :
    fillScanUp df j L = none ↔ ∀ m, j < m → m < df.length → ¬ ((getBar df m).close ≤ L) := by
  unfold fillScanUp
  rw [List.find?_eq_none]
  constructor
  · intro h m hm1 hm2
    have := h m (List.mem_range'_1.mpr ⟨by omega, by omega⟩)
    simpa using this
  · intro h m hmem
    have hb := List.mem_range'_1.mp hmem
    simpa using h m (by omega) (by omega)

theorem gapTail_length_le (hist : List Bar) (lb : ℕ) :
    (gapTail hist lb).length ≤ hist.length := by
  simp [gapTail]

theorem getBar_gapTail (hist : List Bar) (lb m : ℕ) :
    getBar (gapTail hist lb) m
      = getBar hist ((hist.length - max (lb + 2) 10) + m) := by
  simp [gapTail, getBar_drop]

theorem gapTail_length (hist : List Bar) (lb : ℕ) :
    (gapTail hist lb).length = hist.length - (hist.length - max (lb + 2) 10) := by
  simp [gapTail]

theorem find123_first (p : ℕ → Bool) (d : ℕ) (hd1 : 1 ≤ d) (hd3 : d ≤ 3)
    (hp : p d = true) (hmin : ∀ e, 1 ≤ e → e < d → p e = false) :
    [1, 2, 3].find? p = some d := by
  rcases (show d = 1 ∨ d = 2 ∨ d = 3 from by omega) with rfl | rfl | rfl
  · rw [List.find?_cons_of_pos _ hp]
  · rw [List.find?_cons_of_neg _ (by simp [hmin 1 le_rfl (by omega)]),
      List.find?_cons_of_pos _ hp]
  · rw [List.find?_cons_of_neg _ (by simp [hmin 1 le_rfl (by omega)]),
      List.find?_cons_of_neg _ (by simp [hmin 2 (by omega) (by omega)]),
      List.find?_cons_of_pos _ hp]

/-- C6: for a detected, unexpired GAP_UP with zone [lower, upper], it is
reported filled-by-close iff some later row closes at or below the lower edge,
the fill date is the first such row's date, the reclaim signal is true iff
that fill happened and some row within the 3 rows following the fill row
closes at or above the upper edge, and the reclaim date is the first such
row's date. -/
theorem C6_fill_reclaim_roundtrip (hist : List Bar) (gap_threshold : ℚ) (lookback_days : ℕ)
    (j : ℕ) (g : GapEvent)
    (hmono : DatesStrictMono hist)
    (hscan : lastGapScan (gapTail hist lookback_days) lookback_days = some (j, g))
    (hkind : g.kind = "GAP_UP")
    (hlen : 2 ≤ (gapTail hist lookback_days).length)
    (hnotexp : (getBar (gapTail hist lookback_days)
        ((gapTail hist lookback_days).length - 1)).date - g.date ≤ (lookback_days : ℤ)) :
    ((detect_last_gap hist gap_threshold lookback_days).is_filled_by_close = some true
      ↔ ∃ m, j < m ∧ m < (gapTail hist lookback_days).length
          ∧ (getBar (gapTail hist lookback_days) m).close ≤ g.lower)
    ∧ (∀ m₀, IsFirstFill (gapTail hist lookback_days) j g.lower m₀ →
        (detect_last_gap hist gap_threshold lookback_days).fill_date_by_close
          = some ((getBar (gapTail hist lookback_days) m₀).date))
    ∧ ((gap_reclaim_within_3_days (detect_last_gap hist gap_threshold lookback_days)
          hist).is_reclaim = some true
      ↔ ∃ m₀, IsFirstFill (gapTail hist lookback_days) j g.lower m₀
          ∧ ∃ d, 1 ≤ d ∧ d ≤ 3 ∧ m₀ + d < (gapTail hist lookback_days).length
              ∧ g.upper ≤ (getBar (gapTail hist lookback_days) (m₀ + d)).close)
    ∧ (∀ m₀, IsFirstFill (gapTail hist lookback_days) j g.lower m₀ →
        ∀ d, 1 ≤ d → d ≤ 3 → m₀ + d < (gapTail hist lookback_days).length →
        g.upper ≤ (getBar (gapTail hist lookback_days) (m₀ + d)).close →
        (∀ e, 1 ≤ e → e < d →
          ¬ (g.upper ≤ (getBar (gapTail hist lookback_days) (m₀ + e)).close)) →
        (gap_reclaim_within_3_days (detect_last_gap hist gap_threshold lookback_days)
            hist).reclaim_date
          = some ((getBar (gapTail hist lookback_days) (m₀ + d)).date)) := by
  have hdf2 : ¬ (gapTail hist lookback_days).length < 2 := not_lt.mpr hlen
  have hexp : ¬ ((lookback_days : ℤ) < (getBar (gapTail hist lookback_days)
      ((gapTail hist lookback_days).length - 1)).date - g.date) := not_lt.mpr hnotexp
  have hkb : (g.kind == "GAP_UP") = true := by rw [hkind]; rfl
  have hhistlen : 2 ≤ hist.length := le_trans hlen (gapTail_length_le hist lookback_days)
  have hne : hist.isEmpty = false := by
    cases hist with
    | nil => simp at hhistlen
    | cons a l => rfl
  cases hfill : fillScanUp (gapTail hist lookback_days) j g.lower with
  | some m =>
    have hfirst : IsFirstFill (gapTail hist lookback_days) j g.lower m :=
      fillScanUp_eq_some_iff.mp hfill
    have hst : detect_last_gap hist gap_threshold lookback_days
        = ⟨some g, lookback_days, some false, some true,
            some ((getBar (gapTail hist lookback_days) m).date),
            some ((getBar (gapTail hist lookback_days) m).close), some g.upper⟩ := by
      simp only [detect_last_gap, if_neg hdf2, hscan, if_neg hexp, hkb, if_true, hfill]
    have hkm : (hist.length - max (lookback_days + 2) 10) + m < hist.length := by
      have h1 := gapTail_length hist lookback_days
      have h2 := hfirst.2.1
      omega
    have hdate : (getBar (gapTail hist lookback_days) m).date
        = (getBar hist ((hist.length - max (lookback_days + 2) 10) + m)).date := by
      rw [getBar_gapTail]
    have hidx : findDateIdx hist ((getBar (gapTail hist lookback_days) m).date)
        = some ((hist.length - max (lookback_days + 2) 10) + m) := by
      rw [hdate]
      exact findDateIdx_of_mono hmono hkm
    have hkne : ¬ (g.kind ≠ "GAP_UP") := by
      rw [hkind]
      simp
    refine ⟨?_, ?_, ?_, ?_⟩
    · rw [hst]
      constructor
      · intro _
        exact ⟨m, hfirst.1, hfirst.2.1, hfirst.2.2.1⟩
      · intro _
        rfl
    · intro m₀ hm₀
      rw [hst]
      rw [isFirstFill_unique hm₀ hfirst]
    · rw [hst]
      cases hfind : ([1, 2, 3].find? (fun d =>
          decide ((hist.length - max (lookback_days + 2) 10) + m + d < hist.length)
            && decide (g.upper ≤ (getBar hist
                ((hist.length - max (lookback_days + 2) 10) + m + d)).close))) with
      | some d =>
        have hrec : gap_reclaim_within_3_days
            (⟨some g, lookback_days, some false, some true,
              some ((getBar (gapTail hist lookback_days) m).date),
              some ((getBar (gapTail hist lookback_days) m).close), some g.upper⟩ : GapStatus)
            hist
            = ⟨some true,
                some ((getBar hist
                  ((hist.length - max (lookback_days + 2) 10) + m + d)).date),
                some d, some g.upper⟩ := by
          simp only [gap_reclaim_within_3_days, hne, Bool.false_eq_true, if_false,
            Bool.not_true, hidx, hfind, if_neg hkne, not_true, if_true]
        rw [hrec]
        have hpred := List.find?_some hfind
        have hmem := List.mem_of_find?_eq_some hfind
        have hd13 : 1 ≤ d ∧ d ≤ 3 := by
          simp only [List.mem_cons, List.not_mem_nil, or_false] at hmem
          omega
        simp only [Bool.and_eq_true, decide_eq_true_eq] at hpred
        constructor
        · intro _
          refine ⟨m, hfirst, d, hd13.1, hd13.2, ?_, ?_⟩
          · have h1 := gapTail_length hist lookback_days
            omega
          · have h2 := hpred.2
            rw [getBar_gapTail hist lookback_days (m + d)]
            rwa [show (hist.length - max (lookback_days + 2) 10) + (m + d)
              = (hist.length - max (lookback_days + 2) 10) + m + d by omega]
        · intro _
          rfl
      | none =>
        have hrec : gap_reclaim_within_3_days
            (⟨some g, lookback_days, some false, some true,
              some ((getBar (gapTail hist lookback_days) m).date),
              some ((getBar (gapTail hist lookback_days) m).close), some g.upper⟩ : GapStatus)
            hist
            = ⟨some false, none, none, some g.upper⟩ := by
          simp only [gap_reclaim_within_3_days, hne, Bool.false_eq_true, if_false,
            Bool.not_true, hidx, hfind, if_neg hkne, not_true, if_true]
        rw [hrec]
        constructor
        · intro h
          cases h
        · rintro ⟨m₀, hm₀, d, hd1, hd2, hd3, hd4⟩
          have hmm : m₀ = m := isFirstFill_unique hm₀ hfirst
          subst hmm
          have hnf := List.find?_eq_none.mp hfind d (by
            have : d = 1 ∨ d = 2 ∨ d = 3 := by omega
            rcases this with rfl | rfl | rfl <;> simp)
          refine absurd ?_ hnf
          simp only [Bool.and_eq_true, decide_eq_true_eq]
          constructor
          · have h1 := gapTail_length hist lookback_days
            omega
          · rw [show (hist.length - max (lookback_days + 2) 10) + m₀ + d
              = (hist.length - max (lookback_days + 2) 10) + (m₀ + d) by omega]
            rw [← getBar_gapTail hist lookback_days (m₀ + d)]
            exact hd4
    · intro m₀ hm₀ d hd1 hd3 hdlen hdclose hdmin
      have hmm : m₀ = m := isFirstFill_unique hm₀ hfirst
      subst hmm
      have hlendf := gapTail_length hist lookback_days
      have hfindd : ([1, 2, 3].find? (fun e =>
          decide ((hist.length - max (lookback_days + 2) 10) + m₀ + e < hist.length)
            && decide (g.upper ≤ (getBar hist
                ((hist.length - max (lookback_days + 2) 10) + m₀ + e)).close)))
          = some d := by
        refine find123_first _ d hd1 hd3 ?_ ?_
        · simp only [Bool.and_eq_true, decide_eq_true_eq]
          constructor
          · omega
          · rw [show (hist.length - max (lookback_days + 2) 10) + m₀ + d
                = (hist.length - max (lookback_days + 2) 10) + (m₀ + d) from by omega,
              ← getBar_gapTail hist lookback_days (m₀ + d)]
            exact hdclose
        · intro e he1 he2
          have hB : (g.upper ≤ (getBar hist
              ((hist.length - max (lookback_days + 2) 10) + m₀ + e)).close) = False := by
            rw [show (hist.length - max (lookback_days + 2) 10) + m₀ + e
                = (hist.length - max (lookback_days + 2) 10) + (m₀ + e) from by omega,
              ← getBar_gapTail hist lookback_days (m₀ + e)]
            exact eq_false (hdmin e he1 he2)
          simp [hB]
      have hrec : gap_reclaim_within_3_days
          (⟨some g, lookback_days, some false, some true,
            some ((getBar (gapTail hist lookback_days) m₀).date),
            some ((getBar (gapTail hist lookback_days) m₀).close), some g.upper⟩ : GapStatus)
          hist
          = ⟨some true,
              some ((getBar hist
                ((hist.length - max (lookback_days + 2) 10) + m₀ + d)).date),
              some d, some g.upper⟩ := by
        simp only [gap_reclaim_within_3_days, hne, Bool.false_eq_true, if_false,
          Bool.not_true, hidx, hfindd, if_neg hkne, not_true, if_true]
      rw [hst, hrec, getBar_gapTail hist lookback_days (m₀ + d),
        show (hist.length - max (lookback_days + 2) 10) + (m₀ + d)
          = (hist.length - max (lookback_days + 2) 10) + m₀ + d from by omega]
  | none =>
    have hnof := fillScanUp_none_iff.mp hfill
    have hst : detect_last_gap hist gap_threshold lookback_days
        = ⟨some g, lookback_days, some false, some false, none, none, some g.upper⟩ := by
      simp only [detect_last_gap, if_neg hdf2, hscan, if_neg hexp, hkb, if_true, hfill]
    refine ⟨?_, ?_, ?_, ?_⟩
    · rw [hst]
      constructor
      · intro h
        cases h
      · rintro ⟨m, hm1, hm2, hm3⟩
        exact absurd hm3 (hnof m hm1 hm2)
    · intro m₀ hm₀
      exact absurd hm₀.2.2.1 (hnof m₀ hm₀.1 hm₀.2.1)
    · rw [hst]
      constructor
      · intro h
        rw [gap_reclaim_within_3_days] at h
        simp only [hne, Bool.not_true, if_false] at h
        cases h
      · rintro ⟨m₀, hm₀, _⟩
        exact absurd hm₀.2.2.1 (hnof m₀ hm₀.1 hm₀.2.1)
    · intro m₀ hm₀ d hd1 hd3 hdlen hdclose hdmin
      exact absurd hm₀.2.2.1 (hnof m₀ hm₀.1 hm₀.2.1)

theorem islandInner_nomatch (qual : ℕ → ℕ → Bool) (mk : ℕ → ℕ → IslandReversal) (i : ℕ)
    (l : List ℕ) (acc : Option IslandReversal)
    (h : ∀ jj ∈ l, qual i jj = false) :
    l.foldl (fun lat jj => if qual i jj then some (mk i jj) else lat) acc = acc := by
  induction l generalizing acc with
  | nil => rfl
  | cons x xs ih =>
    rw [List.foldl_cons, if_neg (by simp [h x (List.mem_cons_self x xs)])]
    exact ih acc (fun k hk => h k (List.mem_cons_of_mem x hk))

theorem islandInner_last (qual : ℕ → ℕ → Bool) (mk : ℕ → ℕ → IslandReversal)
    (i s n j₀ : ℕ) (acc : Option IslandReversal)
    (hj1 : s ≤ j₀) (hj2 : j₀ < s + n) (hq : qual i j₀ = true)
    (hlast : ∀ jj, j₀ < jj → jj < s + n → qual i jj = false) :
    (List.range' s n).foldl (fun lat jj => if qual i jj then some (mk i jj) else lat) acc
      = some (mk i j₀) := by
  have h2 : s + (j₀ - s) = j₀ := by omega
  have h3 : ((s + n - (j₀ + 1)) + 1) + (j₀ - s) = n := by omega
  have e1 := List.range'_append_1 s (j₀ - s) ((s + n - (j₀ + 1)) + 1)
  rw [h2, h3] at e1
  rw [← e1, List.foldl_append, List.range'_succ, List.foldl_cons, if_pos hq]
  exact islandInner_nomatch qual mk i _ _ (fun k hk => by
    have hb := List.mem_range'_1.mp hk
    exact hlast k (by omega) (by omega))

theorem nested_outer_preserve (outerP : ℕ → Bool) (qual : ℕ → ℕ → Bool)
    (mk : ℕ → ℕ → IslandReversal) (inner : ℕ → List ℕ)
    (l : List ℕ) (acc : Option IslandReversal)
    (h : ∀ i ∈ l, outerP i = true → ∀ jj ∈ inner i, qual i jj = false) :
    l.foldl (fun latest i =>
      if ¬ outerP i then latest
      else (inner i).foldl (fun lat jj => if qual i jj then some (mk i jj) else lat) latest)
      acc = acc := by
  induction l generalizing acc with
  | nil => rfl
  | cons x xs ih =>
    rw [List.foldl_cons]
    by_cases hx : outerP x
    · rw [if_neg (by simp [hx])]
      rw [islandInner_nomatch qual mk x _ _ (h x (List.mem_cons_self x xs) hx)]
      exact ih acc (fun k hk => h k (List.mem_cons_of_mem x hk))
    · rw [if_pos (by simpa using hx)]
      exact ih acc (fun k hk => h k (List.mem_cons_of_mem x hk))

theorem nested_scan_eq_last (outerP : ℕ → Bool) (qual : ℕ → ℕ → Bool)
    (mk : ℕ → ℕ → IslandReversal) (inner : ℕ → List ℕ) (s n i₀ j₀ si ni : ℕ)
    (hinner : inner i₀ = List.range' si ni)
    (hi1 : s ≤ i₀) (hi2 : i₀ < s + n) (hP : outerP i₀ = true)
    (hj1 : si ≤ j₀) (hj2 : j₀ < si + ni) (hq : qual i₀ j₀ = true)
    (hjlast : ∀ jj, j₀ < jj → jj < si + ni → qual i₀ jj = false)
    (hilast : ∀ i, i₀ < i → i < s + n → outerP i = true →
      ∀ jj ∈ inner i, qual i jj = false) :
    (List.range' s n).foldl (fun latest i =>
      if ¬ outerP i then latest
      else (inner i).foldl (fun lat jj => if qual i jj then some (mk i jj) else lat) latest)
      none = some (mk i₀ j₀) := by
  have h4 : s + (i₀ - s) = i₀ := by omega
  have h5 : ((s + n - (i₀ + 1)) + 1) + (i₀ - s) = n := by omega
  have e1 := List.range'_append_1 s (i₀ - s) ((s + n - (i₀ + 1)) + 1)
  rw [h4, h5] at e1
  rw [← e1, List.foldl_append, List.range'_succ, List.foldl_cons, if_neg (by simp [hP]),
    hinner, islandInner_last qual mk i₀ si ni j₀ _ hj1 hj2 hq hjlast]
  exact nested_outer_preserve outerP qual mk inner _ _ (fun k hk => by
    have hb := List.mem_range'_1.mp hk
    exact hilast k (by omega) (by omega))

/-- C8: island reversal detection handles both variants: the bearish detector
returns the (lexicographically) latest qualifying GAP_UP-then-GAP_DOWN pair
within the separation window and overlap test, and the bullish mirror detector
(modelled from the spec and the repository's tests, its source being absent
from src/) returns the latest qualifying GAP_DOWN-then-GAP_UP pair under the
mirrored overlap test. -/
theorem C8_island_reversal_both_variants
    (histBear histBull : List Bar) (tB tL : ℚ) (ms Mx lb : ℕ) (i₀ j₀ i₁ j₁ : ℕ)
    (hBlen : 3 ≤ (islandTail histBear lb).length)
    (hBi1 : 1 ≤ i₀) (hBi2 : i₀ < (islandTail histBear lb).length - 1)
    (hBup : gapUpAt (islandTail histBear lb) i₀ = true)
    (hBj1 : i₀ + ms ≤ j₀)
    (hBj2 : j₀ ≤ min ((islandTail histBear lb).length - 1) (i₀ + Mx))
    (hBq : bearishIslandQual (islandTail histBear lb) i₀ j₀ = true)
    (hBjlast : ∀ jj, j₀ < jj → jj ≤ min ((islandTail histBear lb).length - 1) (i₀ + Mx) →
      bearishIslandQual (islandTail histBear lb) i₀ jj = false)
    (hBilast : ∀ i, i₀ < i → i < (islandTail histBear lb).length - 1 →
      gapUpAt (islandTail histBear lb) i = true →
      ∀ jj ∈ islandInnerRange (islandTail histBear lb) i ms Mx,
        bearishIslandQual (islandTail histBear lb) i jj = false)
    (hLlen : 3 ≤ (islandTail histBull lb).length)
    (hLi1 : 1 ≤ i₁) (hLi2 : i₁ < (islandTail histBull lb).length - 1)
    (hLdown : gapDownAt (islandTail histBull lb) i₁ = true)
    (hLj1 : i₁ + ms ≤ j₁)
    (hLj2 : j₁ ≤ min ((islandTail histBull lb).length - 1) (i₁ + Mx))
    (hLq : bullishIslandQual (islandTail histBull lb) i₁ j₁ = true)
    (hLjlast : ∀ jj, j₁ < jj → jj ≤ min ((islandTail histBull lb).length - 1) (i₁ + Mx) →
      bullishIslandQual (islandTail histBull lb) i₁ jj = false)
    (hLilast : ∀ i, i₁ < i → i < (islandTail histBull lb).length - 1 →
      gapDownAt (islandTail histBull lb) i = true →
      ∀ jj ∈ islandInnerRange (islandTail histBull lb) i ms Mx,
        bullishIslandQual (islandTail histBull lb) i jj = false) :
    detect_island_reversal histBear tB ms Mx lb
      = some ⟨gapUpEventAt (islandTail histBear lb) i₀,
          gapDownEventAt (islandTail histBear lb) j₀⟩
    ∧ detect_island_reversal_bullish histBull tL ms Mx lb
      = some ⟨gapUpEventAt (islandTail histBull lb) j₁,
          gapDownEventAt (islandTail histBull lb) i₁⟩ := by
  constructor
  · have hlt : ¬ (islandTail histBear lb).length < 3 := not_lt.mpr hBlen
    simp only [detect_island_reversal, if_neg hlt]
    exact nested_scan_eq_last
      (fun i => gapUpAt (islandTail histBear lb) i)
      (fun i j => bearishIslandQual (islandTail histBear lb) i j)
      (fun i j => ⟨gapUpEventAt (islandTail histBear lb) i,
        gapDownEventAt (islandTail histBear lb) j⟩)
      (fun i => islandInnerRange (islandTail histBear lb) i ms Mx)
      1 ((islandTail histBear lb).length - 1 - 1) i₀ j₀
      (i₀ + ms) (min ((islandTail histBear lb).length - 1) (i₀ + Mx) + 1 - (i₀ + ms))
      rfl hBi1 (by omega) hBup hBj1 (by omega) hBq
      (fun jj h1 h2 => hBjlast jj h1 (by omega))
      (fun i h1 h2 hp jj hjj => hBilast i h1 (by omega) hp jj hjj)
  · have hlt : ¬ (islandTail histBull lb).length < 3 := not_lt.mpr hLlen
    simp only [detect_island_reversal_bullish, if_neg hlt]
    exact nested_scan_eq_last
      (fun i => gapDownAt (islandTail histBull lb) i)
      (fun i j => bullishIslandQual (islandTail histBull lb) i j)
      (fun i j => ⟨gapUpEventAt (islandTail histBull lb) j,
        gapDownEventAt (islandTail histBull lb) i⟩)
      (fun i => islandInnerRange (islandTail histBull lb) i ms Mx)
      1 ((islandTail histBull lb).length - 1 - 1) i₁ j₁
      (i₁ + ms) (min ((islandTail histBull lb).length - 1) (i₁ + Mx) + 1 - (i₁ + ms))
      rfl hLi1 (by omega) hLdown hLj1 (by omega) hLq
      (fun jj h1 h2 => hLjlast jj h1 (by omega))
      (fun i h1 h2 hp jj hjj => hLilast i h1 (by omega) hp jj hjj)

theorem C5_last_gap_wins_witness :
    (detect_last_gap gapWitnessHist 0 10).last_gap = some ⟨"GAP_UP", 2, 1, 11, 11.6⟩
    ∧ detect_last_gap gapWitnessHist 0 10 = detect_last_gap gapWitnessHist 0 10 :=
  C5_last_gap_wins gapWitnessHist 0 10 1 2 ⟨"GAP_UP", 2, 1, 11, 11.6⟩
    (by with_unfolding_all decide) (by decide) (by with_unfolding_all decide)
    (by with_unfolding_all decide) (by with_unfolding_all decide)
    (fun k h1 h2 => by
      rw [show (gapTail gapWitnessHist 10).length = 4 from by with_unfolding_all decide]
        at h2
      rw [show k = 3 from by omega]
      with_unfolding_all decide)
    (by with_unfolding_all decide)

theorem C6_fill_reclaim_roundtrip_witness :
    ((detect_last_gap fillWitnessHist 0 20).is_filled_by_close = some true
      ↔ ∃ m, 1 < m ∧ m < (gapTail fillWitnessHist 20).length
          ∧ (getBar (gapTail fillWitnessHist 20) m).close
              ≤ (GapEvent.mk "GAP_UP" 1 0 10 10.6).lower)
    ∧ (∀ m₀, IsFirstFill (gapTail fillWitnessHist 20) 1
          (GapEvent.mk "GAP_UP" 1 0 10 10.6).lower m₀ →
        (detect_last_gap fillWitnessHist 0 20).fill_date_by_close
          = some ((getBar (gapTail fillWitnessHist 20) m₀).date))
    ∧ ((gap_reclaim_within_3_days (detect_last_gap fillWitnessHist 0 20)
          fillWitnessHist).is_reclaim = some true
      ↔ ∃ m₀, IsFirstFill (gapTail fillWitnessHist 20) 1
            (GapEvent.mk "GAP_UP" 1 0 10 10.6).lower m₀
          ∧ ∃ d, 1 ≤ d ∧ d ≤ 3 ∧ m₀ + d < (gapTail fillWitnessHist 20).length
              ∧ (GapEvent.mk "GAP_UP" 1 0 10 10.6).upper
                  ≤ (getBar (gapTail fillWitnessHist 20) (m₀ + d)).close)
    ∧ (∀ m₀, IsFirstFill (gapTail fillWitnessHist 20) 1
          (GapEvent.mk "GAP_UP" 1 0 10 10.6).lower m₀ →
        ∀ d, 1 ≤ d → d ≤ 3 → m₀ + d < (gapTail fillWitnessHist 20).length →
        (GapEvent.mk "GAP_UP" 1 0 10 10.6).upper
            ≤ (getBar (gapTail fillWitnessHist 20) (m₀ + d)).close →
        (∀ e, 1 ≤ e → e < d →
          ¬ ((GapEvent.mk "GAP_UP" 1 0 10 10.6).upper
              ≤ (getBar (gapTail fillWitnessHist 20) (m₀ + e)).close)) →
        (gap_reclaim_within_3_days (detect_last_gap fillWitnessHist 0 20)
            fillWitnessHist).reclaim_date
          = some ((getBar (gapTail fillWitnessHist 20) (m₀ + d)).date)) :=
  C6_fill_reclaim_roundtrip fillWitnessHist 0 20 1 ⟨"GAP_UP", 1, 0, 10, 10.6⟩
    (by decide) (by with_unfolding_all decide) rfl
    (by with_unfolding_all decide) (by with_unfolding_all decide)

theorem C8_island_reversal_witness :
    detect_island_reversal bearIslandHist 0 2 10 30
      = some ⟨gapUpEventAt (islandTail bearIslandHist 30) 1,
          gapDownEventAt (islandTail bearIslandHist 30) 4⟩
    ∧ detect_island_reversal_bullish bullIslandHist 0 2 10 30
      = some ⟨gapUpEventAt (islandTail bullIslandHist 30) 4,
          gapDownEventAt (islandTail bullIslandHist 30) 1⟩ := by
  refine C8_island_reversal_both_variants bearIslandHist bullIslandHist 0 0 2 10 30 1 4 1 4
    ?_ ?_ ?_ ?_ ?_ ?_ ?_ ?_ ?_ ?_ ?_ ?_ ?_ ?_ ?_ ?_ ?_ ?_
  · with_unfolding_all decide
  · decide
  · with_unfolding_all decide
  · with_unfolding_all decide
  · decide
  · with_unfolding_all decide
  · with_unfolding_all decide
  · intro jj h1 h2
    rw [show (islandTail bearIslandHist 30).length = 5 from by with_unfolding_all decide]
      at h2
    omega
  · intro i h1 h2 hp jj hjj
    rw [show (islandTail bearIslandHist 30).length = 5 from by with_unfolding_all decide]
      at h2
    rcases (show i = 2 ∨ i = 3 from by omega) with rfl | rfl <;>
      exact absurd hp (by with_unfolding_all decide)
  · with_unfolding_all decide
  · decide
  · with_unfolding_all decide
  · with_unfolding_all decide
  · decide
  · with_unfolding_all decide
  · with_unfolding_all decide
  · intro jj h1 h2
    rw [show (islandTail bullIslandHist 30).length = 5 from by with_unfolding_all decide]
      at h2
    omega
  · intro i h1 h2 hp jj hjj
    rw [show (islandTail bullIslandHist 30).length = 5 from by with_unfolding_all decide]
      at h2
    rcases (show i = 2 ∨ i = 3 from by omega) with rfl | rfl <;>
      exact absurd hp (by with_unfolding_all decide)

/-- C9: with at least 2 rows but fewer than the window + 1 rows the shifted
trailing volume average needs, `bearish_omens` returns a definite
`some false` for the distribution-day flag - not the explicit undetermined
marker (`none`) the claim requires - so the code contradicts the spec's
missing-data policy here. -/
theorem C9_distribution_day_definite_false :
    2 ≤ omenShortHist.length ∧ omenShortHist.length < 20 + 1
    ∧ (bearish_omens omenShortHist 20).distribution_day = some false
    ∧ (bearish_omens omenShortHist 20).distribution_day ≠ none := by
  with_unfolding_all decide

end EtfDashboard
